import Mathlib

/-!
The TCP transport of sleipner-core, embedded.

A shallow embedding of `src/sleipner/transport/tcp.cpp`, of the instance tracker
of `src/sleipner/sys/winsock.cpp`, of `resolve_ip` of `src/sleipner/net/ip.cpp`
and of `SystemApiError` of `src/sleipner/sys/error.cpp`.

* The operating system is an oracle `Os`: it answers every system call from the
  history of the calls issued so far.  Every theorem quantified over `os : Os`
  therefore holds for every behaviour of the operating system.
* The `World` is the history of system calls (in issue order) together with the
  process-wide `WinsockLoader::counter`.
* A C++ function that may throw returns an `Except Failure _` next to the state
  it leaves behind: an exception does not roll back what was done before it.
* `std::mutex` locking is not modelled; operations are taken one at a time.
* `sys::error_message` only builds the text of an exception and is not traced.
-/

namespace Sleipner

/-! ## Exceptions -/

/-- The exception classes thrown by the transport, under their C++ names.
`SystemApiError` carries the code handed to its constructor. -/
inductive Failure where
  | invalid_argument
  | SetupError
  | ConnectionFailure
  | SocketDisconnection
  | overflow_error
  | runtime_error
  | SystemApiError (code : Int)
  | ResolutionFailure
  deriving DecidableEq, Repr

deriving instance DecidableEq for Except

/-! ## Platform constants (WinSock2.h, 64-bit Windows) -/

/-- The type `SOCKET` is `UINT_PTR`: an unsigned 64-bit integer. -/
abbrev socket_t := Nat

def INVALID_SOCKET : socket_t := 2 ^ 64 - 1
def SOCKET_ERROR : Int := -1
def AF_INET : Int := 2
def AF_INET6 : Int := 23
def sizeof_sockaddr_in : Nat := 16
def sizeof_sockaddr_in6 : Nat := 28

def WSAEINTR : Int := 10004
def WSAEFAULT : Int := 10014
def WSAEINVAL : Int := 10022
def WSAEWOULDBLOCK : Int := 10035
def WSAEINPROGRESS : Int := 10036
def WSAEALREADY : Int := 10037
def WSAENOTSOCK : Int := 10038
def WSAEMSGSIZE : Int := 10040
def WSAEAFNOSUPPORT : Int := 10047
def WSAEADDRINUSE : Int := 10048
def WSAEADDRNOTAVAIL : Int := 10049
def WSAENETDOWN : Int := 10050
def WSAENETUNREACH : Int := 10051
def WSAENETRESET : Int := 10052
def WSAECONNABORTED : Int := 10053
def WSAECONNRESET : Int := 10054
def WSAENOTCONN : Int := 10057
def WSAETIMEDOUT : Int := 10060
def WSAECONNREFUSED : Int := 10061
def WSAEHOSTUNREACH : Int := 10065
def WSAHOST_NOT_FOUND : Int := 11001
def WSATRY_AGAIN : Int := 11002
def WSANO_RECOVERY : Int := 11003
def WSANO_DATA : Int := 11004

/-- Conversion of an integer to a 32-bit signed `int` / `long`. -/
def toInt32 (n : Int) : Int := (n + 2 ^ 31) % 2 ^ 32 - 2 ^ 31

/-- Conversion of an `int` to `unsigned int`. -/
def toUInt32 (n : Int) : Nat := (n % 2 ^ 32).toNat

/-- Conversion of a raw return value to `SOCKET` (unsigned 64-bit). -/
def toSocket (n : Int) : socket_t := (n % 2 ^ 64).toNat

/-- The macro `VALIDATE_SOCKET(socket)` of tcp.cpp: `socket != INVALID_SOCKET`. -/
def VALIDATE_SOCKET (socket : socket_t) : Bool := socket != INVALID_SOCKET

/-- The macro `SOCKET_FAILURE(res)` of tcp.cpp: `res == SOCKET_ERROR`. -/
def SOCKET_FAILURE (res : Int) : Bool := res == SOCKET_ERROR

/-! ## The operating system -/

/-- The system calls issued by the transport, with the arguments handed over. -/
inductive OsCall where
  | WSAStartup
  | WSACleanup
  | socket (family : Int)
  | closesocket (s : socket_t)
  | connect (s : socket_t) (addr : List Nat) (namelen : Int)
  | send (s : socket_t) (data : List Nat) (len : Int)
  | select (s : socket_t) (tv_sec tv_usec : Int)
  | recv (s : socket_t) (len : Int) (msg_peek : Bool)
  | getsockopt_SO_ERROR (s : socket_t)
  | ioctlsocket_FIONREAD (s : socket_t)
  | getaddrinfo (hostname : List Nat) (port : Nat)
  | freeaddrinfo
  deriving DecidableEq, Repr

/-- One entry of the `addrinfo` list that `getaddrinfo` hands back: the family
and the `ai_addrlen` bytes that `ai_addr` points to (`none` for a null pointer). -/
structure AddrInfo where
  ai_family : Int
  ai_addr : Option (List Nat)
  deriving DecidableEq, Repr

/-- What the system hands back for one call: the return value, the value that
`WSAGetLastError()` / `GetLastError()` reports right after the call, the value
written to an output parameter (`SO_ERROR`, `FIONREAD`), the bytes written
to a receive buffer, and the list stored through the `addrinfo**` parameter. -/
structure OsReply where
  ret : Int := 0
  lastError : Int := 0
  out : Int := 0
  data : List Nat := []
  addrinfo : List AddrInfo := []
  deriving DecidableEq, Repr

/-- The operating system: the reply to a call, given the calls issued before. -/
abbrev Os := List OsCall → OsCall → OsReply

/-- The process state the transport acts on. -/
structure World where
  trace : List OsCall
  counter : Nat
  deriving DecidableEq, Repr

/-- Issue one system call: fetch the reply and record the call. -/
def World.call (os : Os) (w : World) (c : OsCall) : OsReply × World :=
  (os w.trace c, { w with trace := w.trace ++ [c] })

/-! ## net::IpAddress -/

/-- The struct `net::IpAddress` of ip.hpp: a family tag and the bytes of the
socket address structure. -/
structure IpAddress where
  family : Int
  addr : List Nat
  deriving DecidableEq, Repr

/-! ## sys::WinsockLoader::InstanceTracker (winsock.cpp) -/

/-- The constructor `InstanceTracker::InstanceTracker()`: `fetch_add(1)`, and
`WSAStartup` when the previous count was zero; a failed startup takes the
increment back and throws `SystemApiError(GetLastError(), ...)`. -/
def InstanceTracker.ctor (os : Os) (w : World) : Except Failure Unit × World :=
  let old := w.counter
  let w1 : World := { w with counter := (w.counter + 1) % 2 ^ 64 }
  if old = 0 then
    let (r, w2) := w1.call os .WSAStartup
    if r.ret ≠ 0 then
      (.error (.SystemApiError r.lastError),
        { w2 with counter := (w2.counter + (2 ^ 64 - 1)) % 2 ^ 64 })
    else (.ok (), w2)
  else (.ok (), w1)

/-- The destructor `InstanceTracker::~InstanceTracker()`: `fetch_sub(1)`, and
`WSACleanup` when the previous count was one. -/
def InstanceTracker.dtor (os : Os) (w : World) : World :=
  let old := w.counter
  let w1 : World := { w with counter := (w.counter + (2 ^ 64 - 1)) % 2 ^ 64 }
  if old = 1 then (w1.call os .WSACleanup).2 else w1

/-- The static `WinsockLoader::get_count()`. -/
def WinsockLoader.get_count (w : World) : Nat := w.counter

/-! ## System specific socket methods (tcp.cpp) -/

/-- The function `_new_socket(socket_t& socket, int family)`. -/
def _new_socket (os : Os) (w : World) (socket : socket_t) (family : Int) :
    Except Failure Unit × socket_t × World :=
  if VALIDATE_SOCKET socket then (.error .SetupError, socket, w)
  else if family ≠ AF_INET ∧ family ≠ AF_INET6 then (.error .invalid_argument, socket, w)
  else
    let (r, w1) := w.call os (.socket family)
    let socket1 := toSocket r.ret
    if !VALIDATE_SOCKET socket1 then (.error (.SystemApiError r.lastError), socket1, w1)
    else (.ok (), socket1, w1)

/-- The function `_close_socket(socket_t& socket) noexcept`: the result of
`closesocket` is ignored. -/
def _close_socket (os : Os) (w : World) (socket : socket_t) : socket_t × World :=
  let w1 := if VALIDATE_SOCKET socket then (w.call os (.closesocket socket)).2 else w
  (INVALID_SOCKET, w1)

/-- The `switch ( err )` of `_connect`. -/
def _connect_switch (err : Int) : Failure :=
  if err = WSAEWOULDBLOCK then .runtime_error
  else if err = WSAENETDOWN ∨ err = WSAEADDRINUSE ∨ err = WSAEINTR ∨ err = WSAEINPROGRESS
      ∨ err = WSAEALREADY ∨ err = WSAEADDRNOTAVAIL ∨ err = WSAECONNREFUSED
      ∨ err = WSAENETUNREACH ∨ err = WSAEHOSTUNREACH ∨ err = WSAETIMEDOUT then
    .ConnectionFailure
  else if err = WSAEAFNOSUPPORT ∨ err = WSAEFAULT ∨ err = WSAEINVAL then .invalid_argument
  else .SystemApiError err

/-- The function `_connect(socket_t& socket, const net::IpAddress& address)`. -/
def _connect (os : Os) (w : World) (socket : socket_t) (address : IpAddress) :
    Except Failure Unit × socket_t × World :=
  if address.addr.length ≠ sizeof_sockaddr_in ∧ address.addr.length ≠ sizeof_sockaddr_in6 then
    (.error .invalid_argument, socket, w)
  else
    let (r, w1) := w.call os (.connect socket address.addr (toInt32 address.addr.length))
    if SOCKET_FAILURE r.ret then
      let err := r.lastError
      let (socket1, w2) := _close_socket os w1 socket
      (.error (_connect_switch err), socket1, w2)
    else (.ok (), socket, w1)

/-- The function `_send(socket_t& socket, const char* data, size_t size)`. -/
def _send (os : Os) (w : World) (socket : socket_t) (data : List Nat) :
    Except Failure Nat × World :=
  if !VALIDATE_SOCKET socket then (.error .SetupError, w)
  else
    let (r, w1) := w.call os (.send socket data (toInt32 data.length))
    if SOCKET_FAILURE r.ret then
      let err := r.lastError
      if err = WSAENETDOWN ∨ err = WSAENETRESET ∨ err = WSAENOTCONN ∨ err = WSAEHOSTUNREACH
          ∨ err = WSAECONNABORTED ∨ err = WSAECONNRESET ∨ err = WSAETIMEDOUT then
        (.error .SocketDisconnection, w1)
      else if err = WSAEMSGSIZE then (.error .overflow_error, w1)
      else if err = WSAEWOULDBLOCK then (.error .runtime_error, w1)
      else (.error (.SystemApiError err), w1)
    else (.ok (toUInt32 r.ret), w1)

/-- The function `_select(const socket_t& socket, uint64_t timeout)`; the
`timeval` fields are 32-bit `long`. -/
def _select (os : Os) (w : World) (socket : socket_t) (timeout : Nat) :
    Except Failure Nat × World :=
  let tv_sec := toInt32 (timeout / 1000 : Nat)
  let tv_usec := toInt32 ((timeout % 1000) * 1000 : Nat)
  let (r, w1) := w.call os (.select socket tv_sec tv_usec)
  if SOCKET_FAILURE r.ret then
    let err := r.lastError
    if err = WSAENETDOWN then (.error .ConnectionFailure, w1)
    else if err = WSAEINPROGRESS then (.error .runtime_error, w1)
    else (.error (.SystemApiError err), w1)
  else (.ok (toUInt32 r.ret), w1)

/-- The function `_connected(const socket_t& socket)`. -/
def _connected (os : Os) (w : World) (socket : socket_t) : Except Failure Bool × World :=
  match _select os w socket 0 with
  | (.error .ConnectionFailure, w1) => (.ok false, w1)
  | (.error e, w1) => (.error e, w1)
  | (.ok s, w1) =>
    if s > 0 then
      let (r, w2) := w1.call os (.recv socket 1 true)
      if SOCKET_FAILURE r.ret then
        let err := r.lastError
        if err = WSAENETDOWN ∨ err = WSAENOTCONN ∨ err = WSAENETRESET ∨ err = WSAECONNABORTED
            ∨ err = WSAETIMEDOUT ∨ err = WSAECONNRESET then
          (.ok false, w2)
        else if err = WSAEWOULDBLOCK ∨ err = WSAEINPROGRESS then (.error .runtime_error, w2)
        else (.error (.SystemApiError err), w2)
      else (.ok (decide (r.ret > 0)), w2)
    else
      let (r, w2) := w1.call os (.getsockopt_SO_ERROR socket)
      if SOCKET_FAILURE r.ret then
        let err := r.lastError
        if err = WSAENETDOWN then (.ok false, w2)
        else if err = WSAEINPROGRESS then (.error .runtime_error, w2)
        else (.error (.SystemApiError err), w2)
      else (.ok (decide (r.out = 0)), w2)

/-- The function `_bytes_available(const socket_t& socket, uint64_t timeout)`;
`bytes_avail` is a 32-bit `unsigned long`. -/
def _bytes_available (os : Os) (w : World) (socket : socket_t) (timeout : Nat) :
    Except Failure Nat × World :=
  match _select os w socket timeout with
  | (.error e, w1) => (.error e, w1)
  | (.ok s, w1) =>
    if s = 0 then (.ok 0, w1)
    else
      let (r, w2) := w1.call os (.ioctlsocket_FIONREAD socket)
      if SOCKET_FAILURE r.ret then
        let err := r.lastError
        if err = WSAENETDOWN then (.error .SocketDisconnection, w2)
        else if err = WSAEINPROGRESS then (.error .runtime_error, w2)
        else (.error (.SystemApiError err), w2)
      else (.ok (toUInt32 r.out), w2)

/-- The buffer of `size` bytes after the system wrote `data` at its start. -/
def fillBuffer (buf : List Nat) (data : List Nat) : List Nat :=
  data.take buf.length ++ buf.drop data.length

/-- The function `_recv(socket_t& socket, char* buf, size_t size, uint64_t timeout,
bool peek)`: the count returned and the buffer left behind. -/
def _recv (os : Os) (w : World) (socket : socket_t) (buf : List Nat) (timeout : Nat)
    (peek : Bool) : Except Failure (Nat × List Nat) × World :=
  if !VALIDATE_SOCKET socket then (.error .SetupError, w)
  else
    match _select os w socket timeout with
    | (.error e, w1) => (.error e, w1)
    | (.ok s, w1) =>
      if s = 0 then (.ok (0, buf), w1)
      else
        let (r, w2) := w1.call os (.recv socket (toInt32 buf.length) peek)
        if SOCKET_FAILURE r.ret then
          let err := r.lastError
          if err = WSAENETDOWN ∨ err = WSAENOTCONN ∨ err = WSAENETRESET ∨ err = WSAECONNABORTED
              ∨ err = WSAETIMEDOUT ∨ err = WSAECONNRESET then
            (.error .SocketDisconnection, w2)
          else if err = WSAEMSGSIZE then (.error .overflow_error, w2)
          else if err = WSAEWOULDBLOCK ∨ err = WSAEINPROGRESS then (.error .runtime_error, w2)
          else (.error (.SystemApiError err), w2)
        else if r.ret = 0 ∧ buf.length ≠ 0 then (.error .SocketDisconnection, w2)
        else (.ok (toUInt32 r.ret, fillBuffer buf r.data), w2)

/-! ## TcpClient::Impl (tcp.cpp) -/

/-- The struct `TcpClient::Impl`: the socket handle.  Its `sys::WinsockLoader wsl`
member has no data; it holds one count of `WinsockLoader::counter` from
construction to destruction. -/
structure Impl where
  socket : socket_t
  deriving DecidableEq, Repr

/-- The constructor `Impl() = default`: `socket = INVALID_SOCKET`, then the
`wsl` member is constructed.  When that throws, no object exists. -/
def Impl.ctor (os : Os) (w : World) : Except Failure Impl × World :=
  match InstanceTracker.ctor os w with
  | (.ok (), w1) => (.ok ⟨INVALID_SOCKET⟩, w1)
  | (.error e, w1) => (.error e, w1)

/-- The method `Impl::connect(const net::IpAddress& address)`. -/
def Impl.connect (os : Os) (w : World) (self : Impl) (address : IpAddress) :
    Except Failure Unit × Impl × World :=
  match _new_socket os w self.socket address.family with
  | (.error e, s1, w1) => (.error e, ⟨s1⟩, w1)
  | (.ok (), s1, w1) =>
    match _connect os w1 s1 address with
    | (r, s2, w2) => (r, ⟨s2⟩, w2)

/-- The method `Impl::connect(const std::vector<net::IpAddress>& addresses)`:
the `for` loop whose body is `try { _new_socket; _connect; return; }
catch ( error::ConnectionFailure& ) {}`, followed by the final `throw`. -/
def Impl.connect_list (os : Os) (w : World) (self : Impl) :
    List IpAddress → Except Failure Unit × Impl × World
  | [] => (.error .ConnectionFailure, self, w)
  | a :: rest =>
    match _new_socket os w self.socket a.family with
    | (.error .ConnectionFailure, s1, w1) => Impl.connect_list os w1 ⟨s1⟩ rest
    | (.error e, s1, w1) => (.error e, ⟨s1⟩, w1)
    | (.ok (), s1, w1) =>
      match _connect os w1 s1 a with
      | (.error .ConnectionFailure, s2, w2) => Impl.connect_list os w2 ⟨s2⟩ rest
      | (.error e, s2, w2) => (.error e, ⟨s2⟩, w2)
      | (.ok (), s2, w2) => (.ok (), ⟨s2⟩, w2)

/-- The method `Impl::close() noexcept`. -/
def Impl.close (os : Os) (w : World) (self : Impl) : Impl × World :=
  match _close_socket os w self.socket with
  | (s1, w1) => (⟨s1⟩, w1)

/-- The destructor `~Impl()`: `close()`, then the `wsl` member is destroyed. -/
def Impl.dtor (os : Os) (w : World) (self : Impl) : World :=
  InstanceTracker.dtor os (Impl.close os w self).2

def Impl.connected (os : Os) (w : World) (self : Impl) : Except Failure Bool × World :=
  _connected os w self.socket

def Impl.bytes_available (os : Os) (w : World) (self : Impl) : Except Failure Nat × World :=
  _bytes_available os w self.socket 0

def Impl.send (os : Os) (w : World) (self : Impl) (buf : List Nat) :
    Except Failure Nat × World :=
  _send os w self.socket buf

def Impl.receive (os : Os) (w : World) (self : Impl) (buf : List Nat) (timeout : Nat) :
    Except Failure (Nat × List Nat) × World :=
  _recv os w self.socket buf timeout false

def Impl.peek (os : Os) (w : World) (self : Impl) (buf : List Nat) (timeout : Nat) :
    Except Failure (Nat × List Nat) × World :=
  _recv os w self.socket buf timeout true

/-! ## TcpClient (tcp.cpp, tcpclient.hpp) -/

/-- The class `TcpClient`: the `std::unique_ptr<Impl, ImplCleanup> pimpl`. -/
structure TcpClient where
  pimpl : Option Impl
  deriving DecidableEq, Repr

/-- The constructor `TcpClient() = default`: `pimpl` is null. -/
def TcpClient.ctor : TcpClient := ⟨none⟩

/-- The method `TcpClient::connect(const net::IpAddress& address)`. -/
def TcpClient.connect (os : Os) (w : World) (self : TcpClient) (address : IpAddress) :
    Except Failure Unit × TcpClient × World :=
  match self.pimpl with
  | some _ => (.error .SetupError, self, w)
  | none =>
    match Impl.ctor os w with
    | (.error e, w1) => (.error e, self, w1)
    | (.ok impl, w1) =>
      match Impl.connect os w1 impl address with
      | (r, impl1, w2) => (r, ⟨some impl1⟩, w2)

/-- The method `TcpClient::connect(const std::vector<net::IpAddress>& addresses)`. -/
def TcpClient.connect_list (os : Os) (w : World) (self : TcpClient)
    (addresses : List IpAddress) : Except Failure Unit × TcpClient × World :=
  match self.pimpl with
  | some _ => (.error .SetupError, self, w)
  | none =>
    match Impl.ctor os w with
    | (.error e, w1) => (.error e, self, w1)
    | (.ok impl, w1) =>
      match Impl.connect_list os w1 impl addresses with
      | (r, impl1, w2) => (r, ⟨some impl1⟩, w2)

/-- The method `TcpClient::close() noexcept`: `pimpl.reset(nullptr)` deletes the
owned `Impl`, if any. -/
def TcpClient.close (os : Os) (w : World) (self : TcpClient) : TcpClient × World :=
  match self.pimpl with
  | none => (⟨none⟩, w)
  | some impl => (⟨none⟩, Impl.dtor os w impl)

/-- The destructor `~TcpClient() = default`: the `pimpl` member is destroyed. -/
def TcpClient.dtor (os : Os) (w : World) (self : TcpClient) : World :=
  match self.pimpl with
  | none => w
  | some impl => Impl.dtor os w impl

def TcpClient.connected (os : Os) (w : World) (self : TcpClient) :
    Except Failure Bool × World :=
  match self.pimpl with
  | none => (.error .SetupError, w)
  | some impl => impl.connected os w

def TcpClient.bytes_available (os : Os) (w : World) (self : TcpClient) :
    Except Failure Nat × World :=
  match self.pimpl with
  | none => (.error .SetupError, w)
  | some impl => impl.bytes_available os w

/-- The methods `TcpClient::send(const char* buf, size_t size)` and
`TcpClient::send(const std::string& buf)`, which forwards to the former. -/
def TcpClient.send (os : Os) (w : World) (self : TcpClient) (buf : List Nat) :
    Except Failure Nat × World :=
  match self.pimpl with
  | none => (.error .SetupError, w)
  | some impl => impl.send os w buf

/-- The method `TcpClient::receive(char* buf, size_t size, uint64_t timeout)`. -/
def TcpClient.receive (os : Os) (w : World) (self : TcpClient) (buf : List Nat)
    (timeout : Nat) : Except Failure (Nat × List Nat) × World :=
  match self.pimpl with
  | none => (.error .SetupError, w)
  | some impl => impl.receive os w buf timeout

/-- The method `TcpClient::peek(char* buf, size_t size, uint64_t timeout)`. -/
def TcpClient.peek (os : Os) (w : World) (self : TcpClient) (buf : List Nat)
    (timeout : Nat) : Except Failure (Nat × List Nat) × World :=
  match self.pimpl with
  | none => (.error .SetupError, w)
  | some impl => impl.peek os w buf timeout

/-- The tail of the string overloads: the whole buffer when `r == buffer.size()`,
else `buffer.substr(0, r)`. -/
def trimBuffer (r : Nat) (buffer : List Nat) : List Nat :=
  if r = buffer.length then buffer else buffer.take r

/-- The method `std::string TcpClient::receive(size_t size, uint64_t timeout)`. -/
def TcpClient.receive_string (os : Os) (w : World) (self : TcpClient) (size timeout : Nat) :
    Except Failure (List Nat) × World :=
  match self.receive os w (List.replicate size 0) timeout with
  | (.error e, w1) => (.error e, w1)
  | (.ok (r, buffer), w1) => (.ok (trimBuffer r buffer), w1)

/-- The method `std::string TcpClient::peek(size_t size, uint64_t timeout)`. -/
def TcpClient.peek_string (os : Os) (w : World) (self : TcpClient) (size timeout : Nat) :
    Except Failure (List Nat) × World :=
  match self.peek os w (List.replicate size 0) timeout with
  | (.error e, w1) => (.error e, w1)
  | (.ok (r, buffer), w1) => (.ok (trimBuffer r buffer), w1)

/-! ## net::resolve_ip (ip.cpp) -/

/-- The function `translate_addrinfo(const ::addrinfo& info)`: the family is
copied, and the bytes only when `ai_addr` is not null. -/
def translate_addrinfo (info : AddrInfo) : IpAddress :=
  match info.ai_addr with
  | some bytes => ⟨info.ai_family, bytes⟩
  | none => ⟨info.ai_family, []⟩

/-- The statements of `resolve_ip` after the declaration of `wsl`. -/
def resolve_ip_body (os : Os) (w : World) (hostname : List Nat) (port : Nat) :
    Except Failure (List IpAddress) × World :=
  if hostname = [] ∨ port = 0 then (.error .invalid_argument, w)
  else
    let (r, w1) := w.call os (.getaddrinfo hostname port)
    if r.ret ≠ 0 then
      let err := r.lastError
      if err = WSAHOST_NOT_FOUND ∨ err = WSANO_DATA ∨ err = WSATRY_AGAIN
          ∨ err = WSANO_RECOVERY then
        (.error .ResolutionFailure, w1)
      else (.error (.SystemApiError err), w1)
    else
      let addresses :=
        (r.addrinfo.filter
          (fun curr => decide (curr.ai_family = AF_INET ∨ curr.ai_family = AF_INET6))).map
          translate_addrinfo
      (.ok addresses, (w1.call os .freeaddrinfo).2)

/-- The function `resolve_ip(const std::string& hostname, uint16_t port)`: the
local `sys::WinsockLoader wsl` is constructed first and destroyed on every way
out of the body. -/
def resolve_ip (os : Os) (w : World) (hostname : List Nat) (port : Nat) :
    Except Failure (List IpAddress) × World :=
  match InstanceTracker.ctor os w with
  | (.error e, w1) => (.error e, w1)
  | (.ok (), w1) =>
    match resolve_ip_body os w1 hostname port with
    | (r, w2) => (r, InstanceTracker.dtor os w2)

/-! ## error::SystemApiError (sys/error.hpp, sys/error.cpp) -/

/-- The class `SystemApiError`: the public member `error_code`, and of the
`std::system_error` base the value of `code()` and the message. -/
structure SystemApiError where
  error_code : Int
  code_value : Int
  what_arg : String
  deriving DecidableEq, Repr

/-- The constructor `SystemApiError(int code, const std::string& msg)`: it
initialises the base class; `error_code` keeps its default member initialiser
`= 0`. -/
def SystemApiError.ctor_msg (code : Int) (msg : String) : SystemApiError :=
  { error_code := 0, code_value := code, what_arg := msg }

/-- The constructor `SystemApiError(int code)`, which delegates to the former
with `sys::error_message(code)`; the message lookup is a parameter. -/
def SystemApiError.ctor (error_message : Int → String) (code : Int) : SystemApiError :=
  SystemApiError.ctor_msg code (error_message code)

/-! ## Stub operating systems and addresses used to run the code -/

/-- A stub system: startup succeeds, `socket` hands out handle 100, `connect`
is refused for an address whose first byte is 1 and succeeds otherwise,
`select` on `INVALID_SOCKET` reports `WSAENOTSOCK`, everything else succeeds. -/
def stubOs : Os := fun _ c =>
  match c with
  | .socket _ => { ret := 100 }
  | .connect _ addr _ =>
    if addr.head? = some 1 then { ret := -1, lastError := WSAECONNREFUSED } else {}
  | .select s _ _ =>
    if s = INVALID_SOCKET then { ret := -1, lastError := WSAENOTSOCK } else {}
  | _ => {}

/-- The initial process state: no call issued, no Winsock holder. -/
def world0 : World := ⟨[], 0⟩

/-- An IPv4 address that `stubOs` refuses. -/
def addrRefused : IpAddress := ⟨AF_INET, List.replicate 16 1⟩

/-- An IPv4 address that `stubOs` accepts. -/
def addrOpen : IpAddress := ⟨AF_INET, List.replicate 16 2⟩

/-- An IPv6 address that `stubOs` accepts. -/
def addrOpen6 : IpAddress := ⟨AF_INET6, List.replicate 28 3⟩

/-- An address with a valid family and no bytes, as `translate_addrinfo` builds
from an entry whose `ai_addr` is null. -/
def addrNoBytes : IpAddress := ⟨AF_INET, []⟩

/-- The process state after `stubOs` refused the connect of a fresh transport to
`addrRefused`. -/
def worldAfterRefusal : World :=
  ⟨[.WSAStartup, .socket 2, .connect 100 (List.replicate 16 1) 16, .closesocket 100], 1⟩

/-- The process state after a fresh transport connected to `addrOpen` on `stubOs`. -/
def worldConnected : World :=
  ⟨[.WSAStartup, .socket 2, .connect 100 (List.replicate 16 2) 16], 1⟩

/-- The process state after that connected transport was closed. -/
def worldClosed : World :=
  ⟨[.WSAStartup, .socket 2, .connect 100 (List.replicate 16 2) 16, .closesocket 100,
    .WSACleanup], 0⟩

/-! ## Vocabulary of the specification -/

/-- The state reached by running the single-address connect on the candidates
one after the other, as long as each of them fails with `ConnectionFailure`;
`none` as soon as a candidate does anything else. -/
def afterFailures (os : Os) (w : World) (impl : Impl) : List IpAddress → Option (Impl × World)
  | [] => some (impl, w)
  | a :: rest =>
    match Impl.connect os w impl a with
    | (.error .ConnectionFailure, impl1, w1) => afterFailures os w1 impl1 rest
    | _ => none

/-- The address bytes of the `connect` system calls of a trace, in issue order. -/
def connectTargets : List OsCall → List (List Nat)
  | [] => []
  | .connect _ addr _ :: rest => addr :: connectTargets rest
  | _ :: rest => connectTargets rest

/-- The number of `socket` system calls of a trace. -/
def socketCalls : List OsCall → Nat
  | [] => 0
  | .socket _ :: rest => socketCalls rest + 1
  | _ :: rest => socketCalls rest

/-- The failure of an outcome, if any. -/
def failureOf {α : Type} : Except Failure α → Option Failure
  | .error e => some e
  | .ok _ => none

/-- What the string overloads make of the outcome of the buffer overloads. -/
def trimResult : Except Failure (Nat × List Nat) → Except Failure (List Nat)
  | .error e => .error e
  | .ok (r, buffer) => .ok (trimBuffer r buffer)

/-- The size of the native socket address structure of an IP family:
`sizeof(sockaddr_in)` for IPv4, `sizeof(sockaddr_in6)` for IPv6. -/
def nativeSize (family : Int) : Nat :=
  if family = AF_INET then sizeof_sockaddr_in else sizeof_sockaddr_in6

/-- The number of `getaddrinfo` system calls of a trace. -/
def getaddrinfoCalls : List OsCall → Nat
  | [] => 0
  | .getaddrinfo _ _ :: rest => getaddrinfoCalls rest + 1
  | _ :: rest => getaddrinfoCalls rest

/-! ## More stub operating systems -/

/-- A stub system on which `select` always reports one ready handle and every
other call is answered with `reply`. -/
def stubReady (reply : OsReply) : Os := fun _ c =>
  match c with
  | .select _ _ _ => { ret := 1 }
  | _ => reply

/-- A stub system whose `getaddrinfo` succeeds with the list `infos`. -/
def stubResolver (infos : List AddrInfo) : Os := fun _ c =>
  match c with
  | .getaddrinfo _ _ => { addrinfo := infos }
  | _ => {}

/-- One step of the read position of a stream: a `recv` without `MSG_PEEK`
takes up to `len` of the bytes still pending, every other call takes none. -/
def consumeStep (total : Nat) (n : Nat) (c : OsCall) : Nat :=
  match c with
  | .recv _ len false => n + min len.toNat (total - n)
  | _ => n

/-- The number of bytes of a stream of `total` bytes consumed by a trace. -/
def consumed (total : Nat) (trace : List OsCall) : Nat :=
  trace.foldl (consumeStep total) 0

/-- The replies of a stream socket with the bytes `pending` waiting: `select`
reports readiness when bytes wait, `recv` hands over up to `len` of them, with
or without `MSG_PEEK`. -/
def streamReply (pending : List Nat) (c : OsCall) : OsReply :=
  match c with
  | .socket _ => { ret := 100 }
  | .select _ _ _ => { ret := if pending = [] then 0 else 1 }
  | .recv _ len _ =>
    { ret := ((pending.take len.toNat).length : Nat), data := pending.take len.toNat }
  | .ioctlsocket_FIONREAD _ => { out := (pending.length : Nat) }
  | _ => {}

/-- A stream socket as Winsock documents it, fed with the bytes `incoming` by the
peer: the bytes pending are those not yet consumed by a `recv` without
`MSG_PEEK`; a `recv` with `MSG_PEEK` leaves them in place. -/
def streamOs (incoming : List Nat) : Os := fun hist c =>
  streamReply (incoming.drop (consumed incoming.length hist)) c

/-! ## A process with several transports -/

/-- The operations of a process on its transports, taken one at a time. -/
inductive Op where
  | construct
  | connect (i : Nat) (address : IpAddress)
  | connect_list (i : Nat) (addresses : List IpAddress)
  | close (i : Nat)
  | destroy (i : Nat)
  | resolve_ip (hostname : List Nat) (port : Nat)
  deriving DecidableEq, Repr

/-- The live `TcpClient` instances of a process and its process state. -/
structure Process where
  clients : List TcpClient
  world : World
  deriving DecidableEq, Repr

/-- One operation: `construct` adds a fresh instance, `destroy i` runs the
destructor of instance `i` and drops it, the others call the method on instance
`i` (exceptions are caught by the caller); an index without instance does
nothing. -/
def Process.step (os : Os) (p : Process) : Op → Process
  | .construct => { p with clients := p.clients ++ [TcpClient.ctor] }
  | .connect i address =>
    match p.clients[i]? with
    | none => p
    | some c =>
      match TcpClient.connect os p.world c address with
      | (_, c1, w1) => ⟨p.clients.set i c1, w1⟩
  | .connect_list i addresses =>
    match p.clients[i]? with
    | none => p
    | some c =>
      match TcpClient.connect_list os p.world c addresses with
      | (_, c1, w1) => ⟨p.clients.set i c1, w1⟩
  | .close i =>
    match p.clients[i]? with
    | none => p
    | some c =>
      match TcpClient.close os p.world c with
      | (c1, w1) => ⟨p.clients.set i c1, w1⟩
  | .destroy i =>
    match p.clients[i]? with
    | none => p
    | some c => ⟨p.clients.eraseIdx i, TcpClient.dtor os p.world c⟩
  | .resolve_ip hostname port => { p with world := (resolve_ip os p.world hostname port).2 }

/-- A sequence of operations, from left to right. -/
def Process.run (os : Os) (p : Process) (ops : List Op) : Process :=
  ops.foldl (Process.step os) p

/-- One for an instance that holds an implementation object (and with it one
`WinsockLoader`), zero for one that does not. -/
def holds (c : TcpClient) : Nat := if c.pimpl.isSome then 1 else 0

/-- The number of instances that hold an implementation object. -/
def holders : List TcpClient → Nat
  | [] => 0
  | c :: rest => holds c + holders rest

/-- The number of instances that own a socket handle: an implementation object
whose `socket` is not `INVALID_SOCKET`. -/
def socketOwners : List TcpClient → Nat
  | [] => 0
  | c :: rest =>
    (match c.pimpl with
      | some impl => if VALIDATE_SOCKET impl.socket then 1 else 0
      | none => 0) + socketOwners rest

/-! ## Helper lemmas -/

theorem connectTargets_append (xs ys : List OsCall) :
    connectTargets (xs ++ ys) = connectTargets xs ++ connectTargets ys := by
  induction xs with
  | nil => rfl
  | cons x xs ih => cases x <;> simp [connectTargets, ih]

theorem socketCalls_append (xs ys : List OsCall) :
    socketCalls (xs ++ ys) = socketCalls xs + socketCalls ys := by
  induction xs with
  | nil => simp [socketCalls]
  | cons x xs ih => cases x <;> simp [socketCalls, ih]; omega

/-- The loop body of the list connect is the single-address connect: the list
connect continues after a `ConnectionFailure` and otherwise ends with the
outcome of the single-address connect. -/
theorem Impl.connect_list_cons (os : Os) (w : World) (impl : Impl) (a : IpAddress)
    (rest : List IpAddress) :
    Impl.connect_list os w impl (a :: rest) =
      match Impl.connect os w impl a with
      | (.error .ConnectionFailure, impl1, w1) => Impl.connect_list os w1 impl1 rest
      | r => r := by
  rw [Impl.connect_list, Impl.connect]
  rcases h1 : _new_socket os w impl.socket a.family with ⟨r1, s1, w1⟩
  rcases r1 with e1 | u1
  · cases e1 <;> rfl
  · rcases h2 : _connect os w1 s1 a with ⟨r2, s2, w2⟩
    rcases r2 with e2 | u2
    · cases e2 <;> simp [h2]
    · simp [h2]

/-- Candidates that all fail with `ConnectionFailure` are skipped by the list
connect, which goes on with the remaining candidates from the state they left. -/
theorem Impl.connect_list_append (os : Os) (pre rest : List IpAddress) :
    ∀ (w : World) (impl : Impl) (impl1 : Impl) (w1 : World),
      afterFailures os w impl pre = some (impl1, w1) →
      Impl.connect_list os w impl (pre ++ rest) = Impl.connect_list os w1 impl1 rest := by
  induction pre with
  | nil =>
    intro w impl impl1 w1 h
    simp only [afterFailures, Option.some.injEq, Prod.mk.injEq] at h
    obtain ⟨rfl, rfl⟩ := h
    rfl
  | cons a pre ih =>
    intro w impl impl1 w1 h
    rw [List.cons_append, Impl.connect_list_cons]
    rw [afterFailures] at h
    rcases hc : Impl.connect os w impl a with ⟨r, i2, w2⟩
    rw [hc] at h
    rcases r with e | u
    · cases e <;> simp at h
      simpa using ih w2 i2 impl1 w1 h
    · simp at h

/-- A successful `_new_socket` started without a handle, issued exactly one
`socket` call and left a valid handle. -/
theorem _new_socket_ok (os : Os) (w : World) (s : socket_t) (family : Int) (s1 : socket_t)
    (w1 : World) (h : _new_socket os w s family = (.ok (), s1, w1)) :
    VALIDATE_SOCKET s = false ∧ VALIDATE_SOCKET s1 = true ∧
      w1 = { w with trace := w.trace ++ [.socket family] } := by
  unfold _new_socket World.call at h
  by_cases h1 : VALIDATE_SOCKET s = true
  · rw [if_pos h1] at h
    simp at h
  · rw [if_neg h1] at h
    by_cases h2 : family ≠ AF_INET ∧ family ≠ AF_INET6
    · rw [if_pos h2] at h
      simp at h
    · rw [if_neg h2] at h
      by_cases h3 : VALIDATE_SOCKET (toSocket (os w.trace (.socket family)).ret) = true
      · simp only [h3, Bool.not_true, Bool.false_eq_true, if_false, Prod.mk.injEq,
          true_and] at h
        obtain ⟨rfl, rfl⟩ := h
        exact ⟨by simpa using h1, h3, rfl⟩
      · simp only [Bool.not_eq_true] at h3
        simp [h3] at h

/-- The function `_new_socket` never throws `ConnectionFailure`. -/
theorem _new_socket_ne_ConnectionFailure (os : Os) (w : World) (s : socket_t) (family : Int) :
    (_new_socket os w s family).1 ≠ .error .ConnectionFailure := by
  unfold _new_socket World.call
  by_cases h1 : VALIDATE_SOCKET s = true
  · rw [if_pos h1]
    simp
  · rw [if_neg h1]
    by_cases h2 : family ≠ AF_INET ∧ family ≠ AF_INET6
    · rw [if_pos h2]
      simp
    · rw [if_neg h2]
      by_cases h3 : VALIDATE_SOCKET (toSocket (os w.trace (.socket family)).ret) = true
      · simp [h3]
      · simp only [Bool.not_eq_true] at h3
        simp [h3]

/-- A `_connect` that throws `ConnectionFailure` issued one `connect` call and
released the handle through `_close_socket`. -/
theorem _connect_ConnectionFailure (os : Os) (w : World) (s : socket_t) (a : IpAddress)
    (s1 : socket_t) (w1 : World)
    (h : _connect os w s a = (.error .ConnectionFailure, s1, w1)) :
    s1 = INVALID_SOCKET ∧
      w1 = (_close_socket os
        { w with trace := w.trace ++ [.connect s a.addr (toInt32 a.addr.length)] } s).2 := by
  unfold _connect World.call at h
  by_cases h1 : a.addr.length ≠ sizeof_sockaddr_in ∧ a.addr.length ≠ sizeof_sockaddr_in6
  · rw [if_pos h1] at h
    simp at h
  · rw [if_neg h1] at h
    by_cases h2 : SOCKET_FAILURE
        (os w.trace (.connect s a.addr (toInt32 a.addr.length))).ret = true
    · simp only [h2, if_true, Prod.mk.injEq] at h
      obtain ⟨-, rfl, rfl⟩ := h
      exact ⟨rfl, rfl⟩
    · simp [h2] at h

/-- A single-address connect that fails with `ConnectionFailure` has allocated
one socket, issued one `connect` call for the address on it, and closed it. -/
theorem Impl.connect_ConnectionFailure (os : Os) (w : World) (impl : Impl) (a : IpAddress)
    (impl1 : Impl) (w1 : World)
    (h : Impl.connect os w impl a = (.error .ConnectionFailure, impl1, w1)) :
    impl1.socket = INVALID_SOCKET ∧ w1.counter = w.counter ∧
      ∃ s, w1.trace = w.trace ++
        [.socket a.family, .connect s a.addr (toInt32 a.addr.length), .closesocket s] := by
  unfold Impl.connect at h
  rcases hn : _new_socket os w impl.socket a.family with ⟨r, s2, w2⟩
  rw [hn] at h
  rcases r with e | u
  · have := _new_socket_ne_ConnectionFailure os w impl.socket a.family
    rw [hn] at this
    simp only [Prod.mk.injEq] at h
    exact absurd (by rw [h.1]) this
  · obtain ⟨-, hv, rfl⟩ := _new_socket_ok os w impl.socket a.family s2 _ hn
    simp only at h
    rcases hc : _connect os { w with trace := w.trace ++ [.socket a.family] } s2 a
      with ⟨r3, s3, w3⟩
    rw [hc] at h
    simp only [Prod.mk.injEq] at h
    obtain ⟨rfl, rfl, rfl⟩ := h
    obtain ⟨rfl, rfl⟩ := _connect_ConnectionFailure os _ s2 a _ _ hc
    refine ⟨rfl, ?_, s2, ?_⟩
    · simp [_close_socket, hv, World.call]
    · simp [_close_socket, hv, World.call]

/-- Candidates that failed one after the other with `ConnectionFailure` each left
one `socket` call and one `connect` call, in the order of the candidates, and
no handle behind. -/
theorem afterFailures_trace (os : Os) (l : List IpAddress) :
    ∀ (w : World) (impl impl1 : Impl) (w1 : World),
      afterFailures os w impl l = some (impl1, w1) →
      (l ≠ [] → impl1.socket = INVALID_SOCKET) ∧ w1.counter = w.counter ∧
        ∃ calls, w1.trace = w.trace ++ calls ∧
          connectTargets calls = l.map (fun a => a.addr) ∧ socketCalls calls = l.length := by
  induction l with
  | nil =>
    intro w impl impl1 w1 h
    simp only [afterFailures, Option.some.injEq, Prod.mk.injEq] at h
    obtain ⟨rfl, rfl⟩ := h
    exact ⟨fun h => absurd rfl h, rfl, [], by simp, rfl, rfl⟩
  | cons a rest ih =>
    intro w impl impl1 w1 h
    rw [afterFailures] at h
    rcases hc : Impl.connect os w impl a with ⟨r, i2, w2⟩
    rw [hc] at h
    rcases r with e | u
    · cases e <;> simp at h
      obtain ⟨hs, hcnt, s, htr⟩ := Impl.connect_ConnectionFailure os w impl a i2 w2 hc
      obtain ⟨hs1, hcnt1, calls, htr1, htg, hsc⟩ := ih w2 i2 impl1 w1 h
      refine ⟨fun _ => ?_, by rw [hcnt1, hcnt],
        [.socket a.family, .connect s a.addr (toInt32 a.addr.length), .closesocket s] ++ calls,
        ?_, ?_, ?_⟩
      · cases rest with
        | nil =>
          simp only [afterFailures, Option.some.injEq, Prod.mk.injEq] at h
          rw [← h.1]
          exact hs
        | cons b rest1 => exact hs1 (by simp)
      · rw [htr1, htr, List.append_assoc]
      · rw [connectTargets_append, htg]
        simp [connectTargets]
      · rw [socketCalls_append, hsc]
        simp [socketCalls]
        omega
    · simp at h

/-! ## C1 – ordered fallback of the list connect -/

/-- C1. On a transport that has never connected (whose implementation object
gets constructed), the list connect tries the candidates in input order: when the
candidates `pre` in front of candidate `a` fail one after the other with
`ConnectionFailure` (each was tried: its `connect` call is in the trace, in
order) and the single-address connect of `a` does anything else - succeeds, or
fails with another kind - then the list connect ends with exactly the outcome,
handle and system state of that single-address connect of `a`; the later
candidates `post` are not tried and do not matter. -/
theorem connect_list_ordered_fallback (os : Os) (w : World) (pre : List IpAddress)
    (a : IpAddress) (post : List IpAddress) (impl0 : Impl) (w0 : World) (impl1 : Impl)
    (w1 : World)
    (hctor : Impl.ctor os w = (.ok impl0, w0))
    (hpre : afterFailures os w0 impl0 pre = some (impl1, w1))
    (ha : (Impl.connect os w1 impl1 a).1 ≠ .error .ConnectionFailure) :
    TcpClient.connect_list os w TcpClient.ctor (pre ++ a :: post) =
        ((Impl.connect os w1 impl1 a).1, ⟨some (Impl.connect os w1 impl1 a).2.1⟩,
          (Impl.connect os w1 impl1 a).2.2) ∧
      ∃ calls, w1.trace = w0.trace ++ calls ∧
        connectTargets calls = pre.map (fun c => c.addr) ∧ socketCalls calls = pre.length := by
  refine ⟨?_, (afterFailures_trace os pre w0 impl0 impl1 w1 hpre).2.2⟩
  simp only [TcpClient.connect_list, TcpClient.ctor, hctor]
  rw [Impl.connect_list_append os pre (a :: post) w0 impl0 impl1 w1 hpre,
    Impl.connect_list_cons]
  rcases hc : Impl.connect os w1 impl1 a with ⟨r, i2, w2⟩
  rw [hc] at ha
  rcases r with e | u
  · cases e <;> simp at ha ⊢
  · simp

/-- C1 at work: the first candidate is refused, the second connects, the third
is never tried. -/
theorem connect_list_ordered_fallback_witness :
    TcpClient.connect_list stubOs world0 TcpClient.ctor
        ([addrRefused] ++ addrOpen :: [addrOpen6]) =
      (.ok (), ⟨some ⟨100⟩⟩,
        ⟨[.WSAStartup, .socket 2, .connect 100 (List.replicate 16 1) 16, .closesocket 100,
          .socket 2, .connect 100 (List.replicate 16 2) 16], 1⟩) :=
  (connect_list_ordered_fallback stubOs world0 [addrRefused] addrOpen [addrOpen6]
    ⟨INVALID_SOCKET⟩ ⟨[.WSAStartup], 1⟩ ⟨INVALID_SOCKET⟩
    ⟨[.WSAStartup, .socket 2, .connect 100 (List.replicate 16 1) 16, .closesocket 100], 1⟩
    rfl rfl (by decide)).1

/-! ## C2 – a list of unreachable candidates -/

/-- C2. On a transport that has never connected (whose implementation object
gets constructed), when every one of the `n` candidates fails its single-address
connect with `ConnectionFailure`, the list connect fails with `ConnectionFailure`
after trying all of them, each once and in input order: the attempts issued
exactly `n` `socket` calls and `n` `connect` calls, the latter on the addresses
of the list in order, and no handle is left. -/
theorem connect_list_all_unreachable (os : Os) (w : World) (addresses : List IpAddress)
    (impl0 : Impl) (w0 : World) (impl1 : Impl) (w1 : World)
    (hn : 1 ≤ addresses.length)
    (hctor : Impl.ctor os w = (.ok impl0, w0))
    (hall : afterFailures os w0 impl0 addresses = some (impl1, w1)) :
    TcpClient.connect_list os w TcpClient.ctor addresses =
        (.error .ConnectionFailure, ⟨some impl1⟩, w1) ∧
      impl1.socket = INVALID_SOCKET ∧
      ∃ calls, w1.trace = w0.trace ++ calls ∧
        connectTargets calls = addresses.map (fun c => c.addr) ∧
        (connectTargets calls).length = addresses.length ∧
        socketCalls calls = addresses.length := by
  obtain ⟨hs, -, calls, htr, htg, hsc⟩ := afterFailures_trace os addresses w0 impl0 impl1 w1 hall
  refine ⟨?_, hs ?_, calls, htr, htg, by rw [htg, List.length_map], hsc⟩
  · simp only [TcpClient.connect_list, TcpClient.ctor, hctor]
    have := Impl.connect_list_append os addresses [] w0 impl0 impl1 w1 hall
    rw [List.append_nil] at this
    rw [this, Impl.connect_list]
  · intro h0
    rw [h0] at hn
    simp at hn

/-- C2 at work: two refused candidates, both tried, one `ConnectionFailure`. -/
theorem connect_list_all_unreachable_witness :
    TcpClient.connect_list stubOs world0 TcpClient.ctor [addrRefused, addrRefused] =
      (.error .ConnectionFailure, ⟨some ⟨INVALID_SOCKET⟩⟩,
        ⟨[.WSAStartup, .socket 2, .connect 100 (List.replicate 16 1) 16, .closesocket 100,
          .socket 2, .connect 100 (List.replicate 16 1) 16, .closesocket 100], 1⟩) :=
  (connect_list_all_unreachable stubOs world0 [addrRefused, addrRefused]
    ⟨INVALID_SOCKET⟩ ⟨[.WSAStartup], 1⟩ ⟨INVALID_SOCKET⟩
    ⟨[.WSAStartup, .socket 2, .connect 100 (List.replicate 16 1) 16, .closesocket 100,
      .socket 2, .connect 100 (List.replicate 16 1) 16, .closesocket 100], 1⟩
    (by decide) rfl rfl).1

/-! ## C3 – the empty list -/

/-- C3, as the specification states it, fails: on a fresh transport the list
connect with an empty list throws `ConnectionFailure`, not `invalid_argument`. -/
theorem connect_list_empty_counterexample :
    (TcpClient.connect_list stubOs world0 TcpClient.ctor []).1 = .error .ConnectionFailure ∧
      (TcpClient.connect_list stubOs world0 TcpClient.ctor []).1 ≠ .error .invalid_argument := by
  decide

/-- C3, amended. On a transport that has never connected (whose implementation
object gets constructed), the list connect with an empty list fails with
`ConnectionFailure`: the loop body never runs, no system call is issued for a
candidate, and the transport keeps the implementation object without a handle. -/
theorem connect_list_empty (os : Os) (w : World) (impl0 : Impl) (w0 : World)
    (hctor : Impl.ctor os w = (.ok impl0, w0)) :
    TcpClient.connect_list os w TcpClient.ctor [] =
        (.error .ConnectionFailure, ⟨some impl0⟩, w0) ∧
      impl0.socket = INVALID_SOCKET := by
  refine ⟨?_, ?_⟩
  · simp only [TcpClient.connect_list, TcpClient.ctor, hctor, Impl.connect_list]
  · unfold Impl.ctor at hctor
    rcases ht : InstanceTracker.ctor os w with ⟨r, w2⟩
    rw [ht] at hctor
    rcases r with e | u
    · simp at hctor
    · simp only [Prod.mk.injEq, Except.ok.injEq] at hctor
      rw [← hctor.1]

/-- C3, amended, at work. -/
theorem connect_list_empty_witness :
    TcpClient.connect_list stubOs world0 TcpClient.ctor [] =
      (.error .ConnectionFailure, ⟨some ⟨INVALID_SOCKET⟩⟩, ⟨[.WSAStartup], 1⟩) :=
  (connect_list_empty stubOs world0 ⟨INVALID_SOCKET⟩ ⟨[.WSAStartup], 1⟩ rfl).1

/-! ## C4 – the transport after a failed connect -/

/-- C4, as the specification states it, fails: after `stubOs` refused the
connect to `addrRefused`, the transport is not in the state of a fresh one, and
a connect to `addrOpen`, which a fresh transport reaches, is rejected with
`SetupError`. -/
theorem failed_connect_counterexample :
    TcpClient.connect stubOs world0 TcpClient.ctor addrRefused =
        (.error .ConnectionFailure, ⟨some ⟨INVALID_SOCKET⟩⟩, worldAfterRefusal) ∧
      (⟨some ⟨INVALID_SOCKET⟩⟩ : TcpClient) ≠ TcpClient.ctor ∧
      TcpClient.connect stubOs worldAfterRefusal ⟨some ⟨INVALID_SOCKET⟩⟩ addrOpen =
        (.error .SetupError, ⟨some ⟨INVALID_SOCKET⟩⟩, worldAfterRefusal) ∧
      (TcpClient.connect stubOs worldAfterRefusal TcpClient.ctor addrOpen).1 = .ok () := by
  decide

/-- C4, amended. A failed connect (single address or list) on a transport that
has never connected leaves it in the fresh state only when the construction of
the implementation object (the Winsock startup) is what failed.  After every
other failure the transport keeps the implementation object made for the
attempt, so every later connect is rejected with `SetupError`, without a system
call and without a change of state.  In both cases `close` brings the transport
back to the fresh state. -/
theorem failed_connect_keeps_impl (os : Os) (w : World) (a : IpAddress) (l : List IpAddress)
    (e : Failure) (t1 : TcpClient) (w1 : World)
    (h : TcpClient.connect os w TcpClient.ctor a = (.error e, t1, w1) ∨
      TcpClient.connect_list os w TcpClient.ctor l = (.error e, t1, w1)) :
    ((Impl.ctor os w = (.error e, w1) ∧ t1 = TcpClient.ctor) ∨
      ((Impl.ctor os w).1 = .ok ⟨INVALID_SOCKET⟩ ∧ t1.pimpl ≠ none ∧
        ∀ (os2 : Os) (w2 : World) (b : IpAddress) (bs : List IpAddress),
          TcpClient.connect os2 w2 t1 b = (.error .SetupError, t1, w2) ∧
          TcpClient.connect_list os2 w2 t1 bs = (.error .SetupError, t1, w2))) ∧
      ∀ (os2 : Os) (w2 : World), (TcpClient.close os2 w2 t1).1 = TcpClient.ctor := by
  refine ⟨?_, fun os2 w2 => by unfold TcpClient.close; cases t1.pimpl <;> rfl⟩
  have hc : ∀ (r : Except Failure Impl) (w0 : World), Impl.ctor os w = (r, w0) →
      (∃ e0, r = .error e0) ∨ r = .ok ⟨INVALID_SOCKET⟩ := by
    intro r w0 hr
    unfold Impl.ctor at hr
    rcases ht : InstanceTracker.ctor os w with ⟨r1, w3⟩
    rw [ht] at hr
    rcases r1 with e1 | u1
    · simp only [Prod.mk.injEq] at hr
      exact Or.inl ⟨e1, hr.1.symm⟩
    · simp only [Prod.mk.injEq] at hr
      exact Or.inr hr.1.symm
  rcases hi : Impl.ctor os w with ⟨r, w0⟩
  rcases hc r w0 hi with ⟨e0, rfl⟩ | rfl
  · left
    rcases h with h | h
    · simp only [TcpClient.connect, TcpClient.ctor, hi, Prod.mk.injEq, Except.error.injEq] at h
      obtain ⟨rfl, rfl, rfl⟩ := h
      exact ⟨rfl, rfl⟩
    · simp only [TcpClient.connect_list, TcpClient.ctor, hi, Prod.mk.injEq,
        Except.error.injEq] at h
      obtain ⟨rfl, rfl, rfl⟩ := h
      exact ⟨rfl, rfl⟩
  · right
    have ht : ∃ impl, t1 = ⟨some impl⟩ := by
      rcases h with h | h
      · simp only [TcpClient.connect, TcpClient.ctor, hi, Prod.mk.injEq] at h
        exact ⟨_, h.2.1.symm⟩
      · simp only [TcpClient.connect_list, TcpClient.ctor, hi, Prod.mk.injEq] at h
        exact ⟨_, h.2.1.symm⟩
    obtain ⟨impl, rfl⟩ := ht
    exact ⟨rfl, by simp, fun os2 w2 b bs => ⟨rfl, rfl⟩⟩

/-- C4, amended, at work: after the refused connect on `stubOs` a later connect is
rejected, and `close` gives the fresh state back. -/
theorem failed_connect_keeps_impl_witness :
    ((Impl.ctor stubOs world0 = (.error .ConnectionFailure, worldAfterRefusal) ∧
        (⟨some ⟨INVALID_SOCKET⟩⟩ : TcpClient) = TcpClient.ctor) ∨
      ((Impl.ctor stubOs world0).1 = .ok ⟨INVALID_SOCKET⟩ ∧
        (⟨some ⟨INVALID_SOCKET⟩⟩ : TcpClient).pimpl ≠ none ∧
        ∀ (os2 : Os) (w2 : World) (b : IpAddress) (bs : List IpAddress),
          TcpClient.connect os2 w2 ⟨some ⟨INVALID_SOCKET⟩⟩ b =
            (.error .SetupError, ⟨some ⟨INVALID_SOCKET⟩⟩, w2) ∧
          TcpClient.connect_list os2 w2 ⟨some ⟨INVALID_SOCKET⟩⟩ bs =
            (.error .SetupError, ⟨some ⟨INVALID_SOCKET⟩⟩, w2))) ∧
      ∀ (os2 : Os) (w2 : World),
        (TcpClient.close os2 w2 ⟨some ⟨INVALID_SOCKET⟩⟩).1 = TcpClient.ctor :=
  failed_connect_keeps_impl stubOs world0 addrRefused [] .ConnectionFailure
    ⟨some ⟨INVALID_SOCKET⟩⟩ worldAfterRefusal (Or.inl rfl)

/-! ## C5 – the handle of a failed attempt -/

/-- C5 fails on the code at an address with a valid family and no bytes: the
single-address connect allocates handle 100 with a `socket` call, `_connect`
throws `invalid_argument` on the length check before it reaches the
`_close_socket` of its failure branch, and the failure surfaces while the
transport still owns the open handle (no `closesocket` call was issued).  The
failure branch of `_connect` does release the handle, as the refused connect
shows. -/
theorem connect_malformed_length_keeps_handle :
    TcpClient.connect stubOs world0 TcpClient.ctor addrNoBytes =
        (.error .invalid_argument, ⟨some ⟨100⟩⟩, ⟨[.WSAStartup, .socket 2], 1⟩) ∧
      VALIDATE_SOCKET 100 = true ∧
      OsCall.closesocket 100 ∉
        (TcpClient.connect stubOs world0 TcpClient.ctor addrNoBytes).2.2.trace ∧
      TcpClient.connect_list stubOs world0 TcpClient.ctor [addrNoBytes, addrOpen] =
        (.error .invalid_argument, ⟨some ⟨100⟩⟩, ⟨[.WSAStartup, .socket 2], 1⟩) ∧
      TcpClient.connect stubOs world0 TcpClient.ctor addrRefused =
        (.error .ConnectionFailure, ⟨some ⟨INVALID_SOCKET⟩⟩, worldAfterRefusal) := by
  decide

/-! ## C6 – a transport that has never connected -/

/-- C6. On a freshly constructed transport each of `connected`,
`bytes_available`, `send`, `receive` and `peek` (both overloads of the last two),
for every argument, fails with `SetupError` and leaves the process state as it
was: no system call is issued. -/
theorem fresh_transport_SetupError (os : Os) (w : World) (buf : List Nat)
    (size timeout : Nat) :
    TcpClient.connected os w TcpClient.ctor = (.error .SetupError, w) ∧
      TcpClient.bytes_available os w TcpClient.ctor = (.error .SetupError, w) ∧
      TcpClient.send os w TcpClient.ctor buf = (.error .SetupError, w) ∧
      TcpClient.receive os w TcpClient.ctor buf timeout = (.error .SetupError, w) ∧
      TcpClient.peek os w TcpClient.ctor buf timeout = (.error .SetupError, w) ∧
      TcpClient.receive_string os w TcpClient.ctor size timeout = (.error .SetupError, w) ∧
      TcpClient.peek_string os w TcpClient.ctor size timeout = (.error .SetupError, w) :=
  ⟨rfl, rfl, rfl, rfl, rfl, rfl, rfl⟩

/-! ## C7 – operations without a handle -/

/-- The function `_select` never throws `SetupError` and always issues a call. -/
theorem _select_ne_SetupError (os : Os) (w : World) (s : socket_t) (timeout : Nat) :
    (_select os w s timeout).1 ≠ .error .SetupError := by
  unfold _select World.call
  simp only
  split_ifs <;> simp

/-- The function `_connected` never throws `SetupError`. -/
theorem _connected_ne_SetupError (os : Os) (w : World) (s : socket_t) :
    (_connected os w s).1 ≠ .error .SetupError := by
  have hs := _select_ne_SetupError os w s 0
  unfold _connected World.call
  rcases hsel : _select os w s 0 with ⟨r, w1⟩
  rw [hsel] at hs
  rcases r with e | n
  · cases e <;> simp at hs ⊢
  · simp only
    split_ifs <;> simp

/-- The function `_bytes_available` never throws `SetupError`. -/
theorem _bytes_available_ne_SetupError (os : Os) (w : World) (s : socket_t) (timeout : Nat) :
    (_bytes_available os w s timeout).1 ≠ .error .SetupError := by
  have hs := _select_ne_SetupError os w s timeout
  unfold _bytes_available World.call
  rcases hsel : _select os w s timeout with ⟨r, w1⟩
  rw [hsel] at hs
  rcases r with e | n
  · cases e <;> simp at hs ⊢
  · simp only
    split_ifs <;> simp

/-- C7 fails on the code after a failed connect: the refused connect leaves the
transport with an implementation object whose handle is `INVALID_SOCKET`; there
`send`, `receive` and `peek` throw `SetupError`, but `connected` and
`bytes_available` hand `INVALID_SOCKET` to `select` and throw what the system
makes of it (`SystemApiError` with `WSAENOTSOCK` on `stubOs`), and on no system
whatsoever do they throw `SetupError`. -/
theorem no_handle_connected_not_SetupError :
    TcpClient.connect stubOs world0 TcpClient.ctor addrRefused =
        (.error .ConnectionFailure, ⟨some ⟨INVALID_SOCKET⟩⟩, worldAfterRefusal) ∧
      TcpClient.connected stubOs worldAfterRefusal ⟨some ⟨INVALID_SOCKET⟩⟩ =
        (.error (.SystemApiError WSAENOTSOCK),
          { worldAfterRefusal with
            trace := worldAfterRefusal.trace ++ [.select INVALID_SOCKET 0 0] }) ∧
      TcpClient.bytes_available stubOs worldAfterRefusal ⟨some ⟨INVALID_SOCKET⟩⟩ =
        (.error (.SystemApiError WSAENOTSOCK),
          { worldAfterRefusal with
            trace := worldAfterRefusal.trace ++ [.select INVALID_SOCKET 0 0] }) ∧
      (∀ (os : Os) (w : World),
        (TcpClient.connected os w ⟨some ⟨INVALID_SOCKET⟩⟩).1 ≠ .error .SetupError ∧
        (TcpClient.bytes_available os w ⟨some ⟨INVALID_SOCKET⟩⟩).1 ≠ .error .SetupError) ∧
      (∀ (os : Os) (w : World) (buf : List Nat) (timeout : Nat),
        TcpClient.send os w ⟨some ⟨INVALID_SOCKET⟩⟩ buf = (.error .SetupError, w) ∧
        TcpClient.receive os w ⟨some ⟨INVALID_SOCKET⟩⟩ buf timeout = (.error .SetupError, w) ∧
        TcpClient.peek os w ⟨some ⟨INVALID_SOCKET⟩⟩ buf timeout = (.error .SetupError, w)) := by
  refine ⟨by decide, by decide, by decide, fun os w => ⟨?_, ?_⟩, fun os w buf timeout => ?_⟩
  · exact _connected_ne_SetupError os w INVALID_SOCKET
  · exact _bytes_available_ne_SetupError os w INVALID_SOCKET 0
  · exact ⟨rfl, rfl, rfl⟩

/-! ## C8 – connect on a connected transport -/

/-- C8. On a transport that holds an implementation object - in particular a
connected one - both connects, for every argument, fail with `SetupError`, issue
no system call (no socket is allocated: the process state is unchanged) and
leave the transport, handle included, as it was. -/
theorem connect_on_connected_rejected (os : Os) (w : World) (impl : Impl) (a : IpAddress)
    (l : List IpAddress) :
    TcpClient.connect os w ⟨some impl⟩ a = (.error .SetupError, ⟨some impl⟩, w) ∧
      TcpClient.connect_list os w ⟨some impl⟩ l = (.error .SetupError, ⟨some impl⟩, w) :=
  ⟨rfl, rfl⟩

/-! ## C9 – connect after close -/

/-- C9, as the specification states it, fails: on `stubOs` a transport connects,
is closed, and then connects again - to another address and with a newly
allocated handle - with either connect. -/
theorem reconnect_after_close_counterexample :
    TcpClient.connect stubOs world0 TcpClient.ctor addrOpen =
        (.ok (), ⟨some ⟨100⟩⟩, worldConnected) ∧
      TcpClient.close stubOs worldConnected ⟨some ⟨100⟩⟩ = (⟨none⟩, worldClosed) ∧
      TcpClient.connect stubOs worldClosed ⟨none⟩ addrOpen6 =
        (.ok (), ⟨some ⟨100⟩⟩,
          ⟨worldClosed.trace ++
            [.WSAStartup, .socket 23, .connect 100 (List.replicate 28 3) 28], 1⟩) ∧
      TcpClient.connect_list stubOs worldClosed ⟨none⟩ [addrOpen6] =
        (.ok (), ⟨some ⟨100⟩⟩,
          ⟨worldClosed.trace ++
            [.WSAStartup, .socket 23, .connect 100 (List.replicate 28 3) 28], 1⟩) := by
  decide

/-- C9, amended. `close` puts the transport, whatever its state, into the state
of a freshly constructed one, so every later connect (single address or list)
behaves exactly as on a fresh transport: it is attempted, and when the
implementation object gets constructed and the single-address connect succeeds,
the transport is connected again, with the handle of that attempt. -/
theorem close_then_connect_as_fresh (os : Os) (w : World) (self : TcpClient) (os2 : Os)
    (w2 : World) (a : IpAddress) (l : List IpAddress) :
    (TcpClient.close os w self).1 = TcpClient.ctor ∧
      TcpClient.connect os2 w2 (TcpClient.close os w self).1 a =
        TcpClient.connect os2 w2 TcpClient.ctor a ∧
      TcpClient.connect_list os2 w2 (TcpClient.close os w self).1 l =
        TcpClient.connect_list os2 w2 TcpClient.ctor l ∧
      ∀ (impl0 : Impl) (w0 : World) (impl1 : Impl) (w1 : World),
        Impl.ctor os2 w2 = (.ok impl0, w0) →
        Impl.connect os2 w0 impl0 a = (.ok (), impl1, w1) →
        TcpClient.connect os2 w2 (TcpClient.close os w self).1 a =
          (.ok (), ⟨some impl1⟩, w1) := by
  have hclose : (TcpClient.close os w self).1 = TcpClient.ctor := by
    unfold TcpClient.close
    cases self.pimpl <;> rfl
  refine ⟨hclose, by rw [hclose], by rw [hclose], ?_⟩
  intro impl0 w0 impl1 w1 hctor hconn
  rw [hclose]
  simp only [TcpClient.connect, TcpClient.ctor, hctor, hconn]

/-- C9, amended, at work: the closed transport of `stubOs` connects again. -/
theorem close_then_connect_as_fresh_witness :
    TcpClient.connect stubOs worldClosed
        (TcpClient.close stubOs worldConnected ⟨some ⟨100⟩⟩).1 addrOpen6 =
      (.ok (), ⟨some ⟨100⟩⟩,
        ⟨worldClosed.trace ++
          [.WSAStartup, .socket 23, .connect 100 (List.replicate 28 3) 28], 1⟩) :=
  (close_then_connect_as_fresh stubOs worldConnected ⟨some ⟨100⟩⟩ stubOs worldClosed
    addrOpen6 []).2.2.2 ⟨INVALID_SOCKET⟩ ⟨worldClosed.trace ++ [OsCall.WSAStartup], 1⟩ ⟨100⟩
    ⟨worldClosed.trace ++
      [OsCall.WSAStartup, OsCall.socket 23, OsCall.connect 100 (List.replicate 28 3) 28], 1⟩
    rfl rfl

/-! ## C10 – close -/

/-- C10. `close` has no failure outcome: for every transport state and every
behaviour of the system (a failing `closesocket` included) it returns a transport
that owns nothing, and a valid handle owned before was handed to `closesocket`.
On a transport that owns nothing (never connected, or closed) `close` is a no-op
that issues no system call; hence a second `close` changes neither the transport
nor the process state, and `close; close` ends in the state of a single `close`. -/
theorem close_never_fails_idempotent (os : Os) (w : World) (self : TcpClient) (os2 : Os)
    (w2 : World) :
    (TcpClient.close os w self).1.pimpl = none ∧
      (∀ h : socket_t, self.pimpl = some ⟨h⟩ → VALIDATE_SOCKET h = true →
        OsCall.closesocket h ∈ (TcpClient.close os w self).2.trace) ∧
      TcpClient.close os2 w2 TcpClient.ctor = (TcpClient.ctor, w2) ∧
      TcpClient.close os2 w2 (TcpClient.close os w self).1 =
        ((TcpClient.close os w self).1, w2) ∧
      TcpClient.close os2 (TcpClient.close os w self).2 (TcpClient.close os w self).1 =
        TcpClient.close os w self := by
  have hclose : (TcpClient.close os w self).1 = ⟨none⟩ := by
    unfold TcpClient.close
    cases self.pimpl <;> rfl
  refine ⟨by rw [hclose], ?_, rfl, by rw [hclose]; rfl, ?_⟩
  · intro h hp hv
    simp only [TcpClient.close, hp, Impl.dtor, Impl.close, _close_socket, hv, if_true,
      World.call, InstanceTracker.dtor]
    split_ifs <;> simp
  · rw [hclose]
    exact Prod.ext hclose.symm rfl

/-- C10 at work: closing the connected transport of `stubOs` hands its handle to
`closesocket`. -/
theorem close_never_fails_idempotent_witness :
    OsCall.closesocket 100 ∈ (TcpClient.close stubOs worldConnected ⟨some ⟨100⟩⟩).2.trace :=
  (close_never_fails_idempotent stubOs worldConnected ⟨some ⟨100⟩⟩ stubOs
    worldClosed).2.1 100 rfl rfl

/-! ## C11 – receive: not ready, and graceful close -/

theorem fillBuffer_length (buf data : List Nat) : (fillBuffer buf data).length = buf.length := by
  simp only [fillBuffer, List.length_append, List.length_take, List.length_drop]
  omega

/-- The function `_recv` when the poll reports no ready handle: count zero, the
buffer untouched, and no call after the poll. -/
theorem _recv_not_ready (os : Os) (w : World) (h : socket_t) (buf : List Nat)
    (timeout : Nat) (pk : Bool) (w1 : World) (hv : VALIDATE_SOCKET h = true)
    (hsel : _select os w h timeout = (.ok 0, w1)) :
    _recv os w h buf timeout pk = (.ok (0, buf), w1) := by
  simp [_recv, hv, hsel]

/-- The function `_recv` when the poll reports a ready handle and the read
returns zero bytes into a buffer that is not empty. -/
theorem _recv_graceful_close (os : Os) (w : World) (h : socket_t) (buf : List Nat)
    (timeout : Nat) (pk : Bool) (sel : Nat) (w1 : World) (hv : VALIDATE_SOCKET h = true)
    (hsize : 0 < buf.length) (hsel : _select os w h timeout = (.ok sel, w1)) (hready : sel ≠ 0)
    (hzero : (os w1.trace (.recv h (toInt32 buf.length) pk)).ret = 0) :
    _recv os w h buf timeout pk =
      (.error .SocketDisconnection,
        { w1 with trace := w1.trace ++ [.recv h (toInt32 buf.length) pk] }) := by
  have hne : buf.length ≠ 0 := by omega
  simp [_recv, hv, hsel, hready, World.call, hzero, SOCKET_FAILURE, SOCKET_ERROR, hne]

/-- A successful `_recv` with count zero into a buffer that is not empty means
that the poll reported no ready handle, and nothing was called after the poll. -/
theorem _recv_zero_count (os : Os) (w : World) (h : socket_t) (buf : List Nat)
    (timeout : Nat) (pk : Bool) (b : List Nat) (w2 : World)
    (hsize : 0 < buf.length)
    (hint : ∀ (hist : List OsCall) (s : socket_t) (len : Int) (p : Bool),
      -2 ^ 31 ≤ (os hist (.recv s len p)).ret ∧ (os hist (.recv s len p)).ret < 2 ^ 31)
    (hres : _recv os w h buf timeout pk = (.ok (0, b), w2)) :
    _select os w h timeout = (.ok 0, w2) ∧ b = buf := by
  unfold _recv at hres
  by_cases hv : (!VALIDATE_SOCKET h) = true
  · rw [if_pos hv] at hres
    simp at hres
  · rw [if_neg hv] at hres
    rcases hsel : _select os w h timeout with ⟨r, w1⟩
    rw [hsel] at hres
    rcases r with e | sel
    · simp at hres
    · by_cases h0 : sel = 0
      · subst h0
        simp only [if_true, Prod.mk.injEq, Except.ok.injEq, true_and] at hres
        obtain ⟨rfl, rfl⟩ := hres
        exact ⟨rfl, rfl⟩
      · exfalso
        simp only [h0, if_false, World.call] at hres
        have hr := hint w1.trace h (toInt32 buf.length) pk
        generalize (os w1.trace (.recv h (toInt32 buf.length) pk)) = rep at hres hr
        by_cases hf : SOCKET_FAILURE rep.ret = true
        · rw [if_pos hf] at hres
          split_ifs at hres <;> simp at hres
        · rw [if_neg hf] at hres
          by_cases hg : rep.ret = 0 ∧ buf.length ≠ 0
          · rw [if_pos hg] at hres
            simp at hres
          · rw [if_neg hg] at hres
            simp only [Prod.mk.injEq, Except.ok.injEq] at hres
            have hz := hres.1.1
            have hne : rep.ret ≠ 0 := fun hh => hg ⟨hh, by omega⟩
            unfold toUInt32 at hz
            omega

/-- The function `_select` issues exactly one `select` call. -/
theorem _select_trace (os : Os) (w : World) (h : socket_t) (timeout : Nat) :
    (_select os w h timeout).2 =
      { w with trace := w.trace ++
        [.select h (toInt32 (timeout / 1000 : Nat)) (toInt32 ((timeout % 1000) * 1000 : Nat))] } := by
  unfold _select World.call
  simp only
  split_ifs <;> rfl

/-- A successful `_recv` leaves a buffer of the size it was given. -/
theorem _recv_ok_length (os : Os) (w : World) (h : socket_t) (buf : List Nat)
    (timeout : Nat) (pk : Bool) (r : Nat) (b : List Nat) (w2 : World)
    (hres : _recv os w h buf timeout pk = (.ok (r, b), w2)) : b.length = buf.length := by
  unfold _recv World.call at hres
  by_cases hv : (!VALIDATE_SOCKET h) = true
  · rw [if_pos hv] at hres
    simp at hres
  · rw [if_neg hv] at hres
    rcases hsel : _select os w h timeout with ⟨r1, w1⟩
    rw [hsel] at hres
    rcases r1 with e | sel
    · simp at hres
    · simp only at hres
      split_ifs at hres <;> simp only [Prod.mk.injEq, Except.ok.injEq, reduceCtorEq,
        false_and] at hres
      · rw [← hres.1.2]
      · rw [← hres.1.2, fillBuffer_length]

/-- C11. On a transport that holds a handle, for every size above zero and every
timeout (`recv` returning an `int`): when the poll reports no ready handle,
`receive` returns a zero-length result without error and nothing is called after
the `select`; a zero-length result without error is returned only then; and when
the poll reports a ready handle and the read returns zero bytes, `receive`
throws `SocketDisconnection`.  The same holds for the overload that fills a
caller's buffer, with the count in place of the length. -/
theorem receive_not_ready_or_closed (os : Os) (w : World) (h : socket_t) (size timeout : Nat)
    (hv : VALIDATE_SOCKET h = true) (hsize : 0 < size)
    (hint : ∀ (hist : List OsCall) (s : socket_t) (len : Int) (p : Bool),
      -2 ^ 31 ≤ (os hist (.recv s len p)).ret ∧ (os hist (.recv s len p)).ret < 2 ^ 31) :
    (∀ w1 : World, _select os w h timeout = (.ok 0, w1) →
        TcpClient.receive_string os w ⟨some ⟨h⟩⟩ size timeout = (.ok [], w1) ∧
        w1.trace = w.trace ++
          [.select h (toInt32 (timeout / 1000 : Nat)) (toInt32 ((timeout % 1000) * 1000 : Nat))]) ∧
      (∀ w2 : World, TcpClient.receive_string os w ⟨some ⟨h⟩⟩ size timeout = (.ok [], w2) →
        _select os w h timeout = (.ok 0, w2)) ∧
      (∀ (sel : Nat) (w1 : World), _select os w h timeout = (.ok sel, w1) → sel ≠ 0 →
        (os w1.trace (.recv h (toInt32 size) false)).ret = 0 →
        TcpClient.receive_string os w ⟨some ⟨h⟩⟩ size timeout =
          (.error .SocketDisconnection,
            { w1 with trace := w1.trace ++ [.recv h (toInt32 size) false] })) ∧
      (∀ (buf : List Nat) (w1 : World), buf.length = size →
        _select os w h timeout = (.ok 0, w1) →
        TcpClient.receive os w ⟨some ⟨h⟩⟩ buf timeout = (.ok (0, buf), w1)) ∧
      (∀ (buf b : List Nat) (w2 : World), buf.length = size →
        TcpClient.receive os w ⟨some ⟨h⟩⟩ buf timeout = (.ok (0, b), w2) →
        _select os w h timeout = (.ok 0, w2)) ∧
      (∀ (buf : List Nat) (sel : Nat) (w1 : World), buf.length = size →
        _select os w h timeout = (.ok sel, w1) → sel ≠ 0 →
        (os w1.trace (.recv h (toInt32 size) false)).ret = 0 →
        TcpClient.receive os w ⟨some ⟨h⟩⟩ buf timeout =
          (.error .SocketDisconnection,
            { w1 with trace := w1.trace ++ [.recv h (toInt32 size) false] })) := by
  have hrep : (List.replicate size 0 : List Nat).length = size := List.length_replicate _ _
  have hpos : 0 < (List.replicate size 0 : List Nat).length := by rw [hrep]; exact hsize
  refine ⟨?_, ?_, ?_, ?_, ?_, ?_⟩
  · intro w1 hsel
    refine ⟨?_, ?_⟩
    · have := _recv_not_ready os w h (List.replicate size 0) timeout false w1 hv hsel
      simp only [TcpClient.receive_string, TcpClient.receive, Impl.receive, this, trimBuffer,
        hrep]
      have hne : ¬ (0 = size) := by omega
      simp [hne]
    · have := _select_trace os w h timeout
      rw [hsel] at this
      simp only at this
      rw [this]
  · intro w2 hres
    simp only [TcpClient.receive_string, TcpClient.receive, Impl.receive] at hres
    rcases hr : _recv os w h (List.replicate size 0) timeout false with ⟨r, w3⟩
    rw [hr] at hres
    rcases r with e | ⟨n, b⟩
    · simp at hres
    · simp only [Prod.mk.injEq, Except.ok.injEq] at hres
      obtain ⟨htrim, rfl⟩ := hres
      have hlen := _recv_ok_length os w h _ timeout false n b w3 hr
      rw [hrep] at hlen
      have hn : n = 0 := by
        unfold trimBuffer at htrim
        split_ifs at htrim with h1
        · rw [htrim] at hlen
          simp at hlen
          omega
        · have := congrArg List.length htrim
          simp only [List.length_take, List.length_nil] at this
          omega
      subst hn
      exact (_recv_zero_count os w h _ timeout false b w3 hpos hint hr).1
  · intro sel w1 hsel hready hzero
    have := _recv_graceful_close os w h (List.replicate size 0) timeout false sel w1 hv hpos
      hsel hready (by rw [hrep]; exact hzero)
    rw [hrep] at this
    simp only [TcpClient.receive_string, TcpClient.receive, Impl.receive, this]
  · intro buf w1 _ hsel
    exact _recv_not_ready os w h buf timeout false w1 hv hsel
  · intro buf b w2 hlen hres
    exact (_recv_zero_count os w h buf timeout false b w2 (by omega) hint hres).1
  · intro buf sel w1 hlen hsel hready hzero
    have := _recv_graceful_close os w h buf timeout false sel w1 hv (by omega) hsel hready
      (by rw [hlen]; exact hzero)
    rw [hlen] at this
    exact this

/-- C11 at work: on `stubOs` the poll of the connected transport reports no ready
handle, and `receive(4, 0)` returns the empty result after that one `select`. -/
theorem receive_not_ready_or_closed_witness :
    TcpClient.receive_string stubOs worldConnected ⟨some ⟨100⟩⟩ 4 0 =
      (.ok [], { worldConnected with trace := worldConnected.trace ++ [OsCall.select 100 0 0] }) :=
  ((receive_not_ready_or_closed stubOs worldConnected 100 4 0 rfl (by decide)
    (fun _ _ _ _ =>
      ⟨show (-2 ^ 31 : Int) ≤ 0 by decide, show (0 : Int) < 2 ^ 31 by decide⟩)).1 _ rfl).1

/-! ## C12 – classification of a failing send -/

/-- C12, as the specification states it, fails: a send that fails with
`WSAEWOULDBLOCK`, which is none of the listed codes, throws `std::runtime_error`
and not `SystemApiError`. -/
theorem send_wouldblock_counterexample :
    TcpClient.send (stubReady { ret := -1, lastError := WSAEWOULDBLOCK }) worldConnected
        ⟨some ⟨100⟩⟩ [71, 69, 84] =
      (.error .runtime_error,
        { worldConnected with
          trace := worldConnected.trace ++ [OsCall.send 100 [71, 69, 84] 3] }) ∧
      (TcpClient.send (stubReady { ret := -1, lastError := WSAEWOULDBLOCK }) worldConnected
        ⟨some ⟨100⟩⟩ [71, 69, 84]).1 ≠ .error (.SystemApiError WSAEWOULDBLOCK) := by
  decide

/-- C12, amended. On a transport that holds a handle, a send whose system call
fails with code `err` throws `SocketDisconnection` for network-down,
network-reset, connection-reset, not-connected, unreachable-host, aborted and
timed-out, `std::overflow_error` for message-too-large, `std::runtime_error`
(retry not implemented) for would-block, and for every other code
`SystemApiError` constructed from that code. -/
theorem send_failure_classification (os : Os) (w : World) (h : socket_t) (data : List Nat)
    (err : Int) (hv : VALIDATE_SOCKET h = true)
    (hfail : SOCKET_FAILURE (os w.trace (.send h data (toInt32 data.length))).ret = true)
    (herr : (os w.trace (.send h data (toInt32 data.length))).lastError = err) :
    ((err = WSAENETDOWN ∨ err = WSAENETRESET ∨ err = WSAECONNRESET ∨ err = WSAENOTCONN
        ∨ err = WSAEHOSTUNREACH ∨ err = WSAECONNABORTED ∨ err = WSAETIMEDOUT) →
        (TcpClient.send os w ⟨some ⟨h⟩⟩ data).1 = .error .SocketDisconnection) ∧
      (err = WSAEMSGSIZE → (TcpClient.send os w ⟨some ⟨h⟩⟩ data).1 = .error .overflow_error) ∧
      (err = WSAEWOULDBLOCK → (TcpClient.send os w ⟨some ⟨h⟩⟩ data).1 = .error .runtime_error) ∧
      ((err ≠ WSAENETDOWN ∧ err ≠ WSAENETRESET ∧ err ≠ WSAECONNRESET ∧ err ≠ WSAENOTCONN
        ∧ err ≠ WSAEHOSTUNREACH ∧ err ≠ WSAECONNABORTED ∧ err ≠ WSAETIMEDOUT
        ∧ err ≠ WSAEMSGSIZE ∧ err ≠ WSAEWOULDBLOCK) →
        (TcpClient.send os w ⟨some ⟨h⟩⟩ data).1 = .error (.SystemApiError err)) := by
  have hsend : (TcpClient.send os w ⟨some ⟨h⟩⟩ data).1 =
      if err = WSAENETDOWN ∨ err = WSAENETRESET ∨ err = WSAENOTCONN ∨ err = WSAEHOSTUNREACH
          ∨ err = WSAECONNABORTED ∨ err = WSAECONNRESET ∨ err = WSAETIMEDOUT then
        .error .SocketDisconnection
      else if err = WSAEMSGSIZE then .error .overflow_error
      else if err = WSAEWOULDBLOCK then .error .runtime_error
      else .error (.SystemApiError err) := by
    simp only [TcpClient.send, Impl.send, _send, hv, World.call, hfail, herr, Bool.not_true,
      Bool.false_eq_true, if_false, if_true]
    split_ifs <;> rfl
  rw [hsend]
  refine ⟨?_, ?_, ?_, ?_⟩
  · intro hc
    rw [if_pos (by tauto)]
  · intro hc
    subst hc
    decide
  · intro hc
    subst hc
    decide
  · intro hc
    rw [if_neg (by tauto), if_neg hc.2.2.2.2.2.2.2.1, if_neg hc.2.2.2.2.2.2.2.2]

/-- C12, amended, at work: a send reset by the peer throws `SocketDisconnection`. -/
theorem send_failure_classification_witness :
    (TcpClient.send (stubReady { ret := -1, lastError := WSAECONNRESET }) worldConnected
      ⟨some ⟨100⟩⟩ [71, 69, 84]).1 = .error .SocketDisconnection :=
  (send_failure_classification (stubReady { ret := -1, lastError := WSAECONNRESET })
    worldConnected 100 [71, 69, 84] WSAECONNRESET rfl rfl rfl).1
    (Or.inr (Or.inr (Or.inl rfl)))

/-! ## C13 – classification of a failing receive against that of send -/

/-- The function `_recv` when the poll reports a ready handle and the read fails
with code `err`. -/
theorem _recv_failure (os : Os) (w : World) (h : socket_t) (buf : List Nat) (timeout : Nat)
    (pk : Bool) (sel : Nat) (w1 : World) (err : Int) (hv : VALIDATE_SOCKET h = true)
    (hsel : _select os w h timeout = (.ok sel, w1)) (hready : sel ≠ 0)
    (hfail : SOCKET_FAILURE (os w1.trace (.recv h (toInt32 buf.length) pk)).ret = true)
    (herr : (os w1.trace (.recv h (toInt32 buf.length) pk)).lastError = err) :
    (_recv os w h buf timeout pk).1 =
      if err = WSAENETDOWN ∨ err = WSAENOTCONN ∨ err = WSAENETRESET ∨ err = WSAECONNABORTED
          ∨ err = WSAETIMEDOUT ∨ err = WSAECONNRESET then
        .error .SocketDisconnection
      else if err = WSAEMSGSIZE then .error .overflow_error
      else if err = WSAEWOULDBLOCK ∨ err = WSAEINPROGRESS then .error .runtime_error
      else .error (.SystemApiError err) := by
  simp only [_recv, hv, hsel, hready, World.call, hfail, herr, Bool.not_true,
    Bool.false_eq_true, if_false, if_true]
  split_ifs <;> rfl

/-- The function `_send` when the system call fails with code `err`. -/
theorem _send_failure (os : Os) (w : World) (h : socket_t) (data : List Nat) (err : Int)
    (hv : VALIDATE_SOCKET h = true)
    (hfail : SOCKET_FAILURE (os w.trace (.send h data (toInt32 data.length))).ret = true)
    (herr : (os w.trace (.send h data (toInt32 data.length))).lastError = err) :
    (_send os w h data).1 =
      if err = WSAENETDOWN ∨ err = WSAENETRESET ∨ err = WSAENOTCONN ∨ err = WSAEHOSTUNREACH
          ∨ err = WSAECONNABORTED ∨ err = WSAECONNRESET ∨ err = WSAETIMEDOUT then
        .error .SocketDisconnection
      else if err = WSAEMSGSIZE then .error .overflow_error
      else if err = WSAEWOULDBLOCK then .error .runtime_error
      else .error (.SystemApiError err) := by
  simp only [_send, hv, World.call, hfail, herr, Bool.not_true, Bool.false_eq_true, if_false,
    if_true]
  split_ifs <;> rfl

/-- C13, as the specification states it, fails: with the code `WSAEHOSTUNREACH`
a failing send throws `SocketDisconnection` and a failing receive throws
`SystemApiError`; with `WSAEINPROGRESS` a failing send throws `SystemApiError`
and a failing receive throws `std::runtime_error`. -/
theorem receive_classification_counterexample :
    (TcpClient.send (stubReady { ret := -1, lastError := WSAEHOSTUNREACH }) worldConnected
        ⟨some ⟨100⟩⟩ [71]).1 = .error .SocketDisconnection ∧
      (TcpClient.receive (stubReady { ret := -1, lastError := WSAEHOSTUNREACH }) worldConnected
        ⟨some ⟨100⟩⟩ [0] 0).1 = .error (.SystemApiError WSAEHOSTUNREACH) ∧
      (TcpClient.send (stubReady { ret := -1, lastError := WSAEINPROGRESS }) worldConnected
        ⟨some ⟨100⟩⟩ [71]).1 = .error (.SystemApiError WSAEINPROGRESS) ∧
      (TcpClient.peek (stubReady { ret := -1, lastError := WSAEINPROGRESS }) worldConnected
        ⟨some ⟨100⟩⟩ [0] 0).1 = .error .runtime_error := by
  decide

/-- C13, amended. `receive` and `peek` are `_recv` without and with `MSG_PEEK`.
When the poll reported a ready handle and the read fails with code `err`, and a
send fails with the same code, both throw the same exception for every code
other than unreachable-host and operation-in-progress; message-too-large
(truncation) gives `std::overflow_error` in both.  For unreachable-host the read
throws `SystemApiError` where send throws `SocketDisconnection`; for
operation-in-progress the read throws `std::runtime_error` where send throws
`SystemApiError`. -/
theorem receive_classification_vs_send (os : Os) (w : World) (h : socket_t) (data : List Nat)
    (os2 : Os) (w2 : World) (h2 : socket_t) (buf : List Nat) (timeout : Nat) (pk : Bool)
    (sel : Nat) (w3 : World) (err : Int)
    (hv : VALIDATE_SOCKET h = true)
    (hfail : SOCKET_FAILURE (os w.trace (.send h data (toInt32 data.length))).ret = true)
    (herr : (os w.trace (.send h data (toInt32 data.length))).lastError = err)
    (hv2 : VALIDATE_SOCKET h2 = true)
    (hsel : _select os2 w2 h2 timeout = (.ok sel, w3)) (hready : sel ≠ 0)
    (hfail2 : SOCKET_FAILURE (os2 w3.trace (.recv h2 (toInt32 buf.length) pk)).ret = true)
    (herr2 : (os2 w3.trace (.recv h2 (toInt32 buf.length) pk)).lastError = err) :
    TcpClient.receive os2 w2 ⟨some ⟨h2⟩⟩ buf timeout = _recv os2 w2 h2 buf timeout false ∧
      TcpClient.peek os2 w2 ⟨some ⟨h2⟩⟩ buf timeout = _recv os2 w2 h2 buf timeout true ∧
      (err ≠ WSAEHOSTUNREACH → err ≠ WSAEINPROGRESS →
        failureOf (_recv os2 w2 h2 buf timeout pk).1 =
          failureOf (TcpClient.send os w ⟨some ⟨h⟩⟩ data).1) ∧
      (err = WSAEMSGSIZE →
        failureOf (_recv os2 w2 h2 buf timeout pk).1 = some .overflow_error ∧
        failureOf (TcpClient.send os w ⟨some ⟨h⟩⟩ data).1 = some .overflow_error) ∧
      (err = WSAEHOSTUNREACH →
        failureOf (_recv os2 w2 h2 buf timeout pk).1 = some (.SystemApiError err) ∧
        failureOf (TcpClient.send os w ⟨some ⟨h⟩⟩ data).1 = some .SocketDisconnection) ∧
      (err = WSAEINPROGRESS →
        failureOf (_recv os2 w2 h2 buf timeout pk).1 = some .runtime_error ∧
        failureOf (TcpClient.send os w ⟨some ⟨h⟩⟩ data).1 = some (.SystemApiError err)) := by
  have hr := _recv_failure os2 w2 h2 buf timeout pk sel w3 err hv2 hsel hready hfail2 herr2
  have hs : (TcpClient.send os w ⟨some ⟨h⟩⟩ data).1 = _ := _send_failure os w h data err hv hfail herr
  rw [hr, hs]
  refine ⟨rfl, rfl, ?_, ?_, ?_, ?_⟩
  · intro hu hp
    by_cases hd : err = WSAENETDOWN ∨ err = WSAENOTCONN ∨ err = WSAENETRESET
        ∨ err = WSAECONNABORTED ∨ err = WSAETIMEDOUT ∨ err = WSAECONNRESET
    · have hd2 : err = WSAENETDOWN ∨ err = WSAENETRESET ∨ err = WSAENOTCONN
          ∨ err = WSAEHOSTUNREACH ∨ err = WSAECONNABORTED ∨ err = WSAECONNRESET
          ∨ err = WSAETIMEDOUT := by tauto
      rw [if_pos hd, if_pos hd2]
      rfl
    · have hd2 : ¬ (err = WSAENETDOWN ∨ err = WSAENETRESET ∨ err = WSAENOTCONN
          ∨ err = WSAEHOSTUNREACH ∨ err = WSAECONNABORTED ∨ err = WSAECONNRESET
          ∨ err = WSAETIMEDOUT) := by tauto
      rw [if_neg hd, if_neg hd2]
      by_cases hm : err = WSAEMSGSIZE
      · rw [if_pos hm, if_pos hm]
        rfl
      · rw [if_neg hm, if_neg hm]
        by_cases hb : err = WSAEWOULDBLOCK
        · rw [if_pos (Or.inl hb), if_pos hb]
          rfl
        · have hb2 : ¬ (err = WSAEWOULDBLOCK ∨ err = WSAEINPROGRESS) := by tauto
          rw [if_neg hb2, if_neg hb]
          rfl
  · intro hc
    subst hc
    exact ⟨by decide, by decide⟩
  · intro hc
    subst hc
    exact ⟨by decide, by decide⟩
  · intro hc
    subst hc
    exact ⟨by decide, by decide⟩

/-- C13, amended, at work: a read and a send that both fail with `WSAECONNRESET`
both throw `SocketDisconnection`. -/
theorem receive_classification_vs_send_witness :
    failureOf (_recv (stubReady { ret := -1, lastError := WSAECONNRESET }) worldConnected 100
        [0, 0] 0 false).1 =
      failureOf (TcpClient.send (stubReady { ret := -1, lastError := WSAECONNRESET })
        worldConnected ⟨some ⟨100⟩⟩ [71]).1 :=
  (receive_classification_vs_send (stubReady { ret := -1, lastError := WSAECONNRESET })
    worldConnected 100 [71] (stubReady { ret := -1, lastError := WSAECONNRESET })
    worldConnected 100 [0, 0] 0 false 1
    { worldConnected with trace := worldConnected.trace ++ [OsCall.select 100 0 0] }
    WSAECONNRESET rfl rfl rfl rfl rfl (by decide) rfl rfl).2.2.1 (by decide) (by decide)

/-! ## C14 – classification of a failing connect -/

/-- C14. In a single-address connect on a transport that has never connected,
once the implementation object and the socket are there and the address has one
of the two native lengths, a `connect` system call that fails with code `err`
makes the connect throw `ConnectionFailure` for network-down, address-in-use,
interrupted, in-progress, already-in-progress, address-unavailable, refused,
unreachable-network, unreachable-host and timed-out, and `std::invalid_argument`
for family-unsupported, fault and invalid-argument. -/
theorem connect_failure_classification (os : Os) (w : World) (a : IpAddress) (impl0 : Impl)
    (w0 : World) (s : socket_t) (w1 : World) (err : Int)
    (hctor : Impl.ctor os w = (.ok impl0, w0))
    (hsock : _new_socket os w0 impl0.socket a.family = (.ok (), s, w1))
    (hlen : a.addr.length = sizeof_sockaddr_in ∨ a.addr.length = sizeof_sockaddr_in6)
    (hfail : SOCKET_FAILURE (os w1.trace (.connect s a.addr (toInt32 a.addr.length))).ret = true)
    (herr : (os w1.trace (.connect s a.addr (toInt32 a.addr.length))).lastError = err) :
    ((err = WSAENETDOWN ∨ err = WSAEADDRINUSE ∨ err = WSAEINTR ∨ err = WSAEINPROGRESS
        ∨ err = WSAEALREADY ∨ err = WSAEADDRNOTAVAIL ∨ err = WSAECONNREFUSED
        ∨ err = WSAENETUNREACH ∨ err = WSAEHOSTUNREACH ∨ err = WSAETIMEDOUT) →
        (TcpClient.connect os w TcpClient.ctor a).1 = .error .ConnectionFailure) ∧
      ((err = WSAEAFNOSUPPORT ∨ err = WSAEFAULT ∨ err = WSAEINVAL) →
        (TcpClient.connect os w TcpClient.ctor a).1 = .error .invalid_argument) := by
  have hnot : ¬ (a.addr.length ≠ sizeof_sockaddr_in ∧ a.addr.length ≠ sizeof_sockaddr_in6) := by
    tauto
  have hc : (TcpClient.connect os w TcpClient.ctor a).1 = .error (_connect_switch err) := by
    simp only [TcpClient.connect, TcpClient.ctor, hctor, Impl.connect, hsock, _connect, hnot,
      if_false, World.call, hfail, if_true, herr]
  rw [hc]
  refine ⟨?_, ?_⟩
  · intro hl
    have hw : err ≠ WSAEWOULDBLOCK := by
      rcases hl with h | h | h | h | h | h | h | h | h | h <;> rw [h] <;> decide
    unfold _connect_switch
    rw [if_neg hw, if_pos hl]
  · intro hl
    rcases hl with h | h | h <;> rw [h] <;> decide

/-- C14 at work: the connect that `stubOs` refuses throws `ConnectionFailure`. -/
theorem connect_failure_classification_witness :
    (TcpClient.connect stubOs world0 TcpClient.ctor addrRefused).1 = .error .ConnectionFailure :=
  (connect_failure_classification stubOs world0 addrRefused ⟨INVALID_SOCKET⟩
    ⟨[OsCall.WSAStartup], 1⟩ 100 ⟨[OsCall.WSAStartup, OsCall.socket 2], 1⟩ WSAECONNREFUSED
    rfl rfl (Or.inl rfl) rfl rfl).1
    (Or.inr (Or.inr (Or.inr (Or.inr (Or.inr (Or.inr (Or.inl rfl)))))))

/-! ## C15 – connected -/

/-- C15. On a transport with an implementation object whose zero-timeout poll
completes with `sel` ready handles.  When `sel > 0`, the one-byte `MSG_PEEK` read
decides: `connected` returns `false` without throwing when the read returns zero
bytes or fails with network-down, not-connected, network-reset, aborted,
timed-out or connection-reset, and returns `true` when it reads one byte.  When
`sel = 0`, `connected` returns `true` exactly when the `SO_ERROR` query succeeds
and reports no error. -/
theorem connected_classification (os : Os) (w : World) (h : socket_t) (sel : Nat) (w1 : World)
    (hsel : _select os w h 0 = (.ok sel, w1)) :
    (0 < sel → ¬ SOCKET_FAILURE (os w1.trace (.recv h 1 true)).ret = true →
        (os w1.trace (.recv h 1 true)).ret = 0 →
        TcpClient.connected os w ⟨some ⟨h⟩⟩ =
          (.ok false, { w1 with trace := w1.trace ++ [.recv h 1 true] })) ∧
      (0 < sel → SOCKET_FAILURE (os w1.trace (.recv h 1 true)).ret = true →
        ((os w1.trace (.recv h 1 true)).lastError = WSAENETDOWN
          ∨ (os w1.trace (.recv h 1 true)).lastError = WSAENOTCONN
          ∨ (os w1.trace (.recv h 1 true)).lastError = WSAENETRESET
          ∨ (os w1.trace (.recv h 1 true)).lastError = WSAECONNABORTED
          ∨ (os w1.trace (.recv h 1 true)).lastError = WSAETIMEDOUT
          ∨ (os w1.trace (.recv h 1 true)).lastError = WSAECONNRESET) →
        TcpClient.connected os w ⟨some ⟨h⟩⟩ =
          (.ok false, { w1 with trace := w1.trace ++ [.recv h 1 true] })) ∧
      (0 < sel → (os w1.trace (.recv h 1 true)).ret = 1 →
        TcpClient.connected os w ⟨some ⟨h⟩⟩ =
          (.ok true, { w1 with trace := w1.trace ++ [.recv h 1 true] })) ∧
      (sel = 0 →
        ((TcpClient.connected os w ⟨some ⟨h⟩⟩).1 = .ok true ↔
          (SOCKET_FAILURE (os w1.trace (.getsockopt_SO_ERROR h)).ret = false ∧
            (os w1.trace (.getsockopt_SO_ERROR h)).out = 0))) := by
  refine ⟨?_, ?_, ?_, ?_⟩
  · intro hpos hnf hz
    simp only [TcpClient.connected, Impl.connected, _connected, hsel, World.call]
    rw [if_pos hpos, if_neg hnf]
    simp [hz]
  · intro hpos hf hl
    simp only [TcpClient.connected, Impl.connected, _connected, hsel, World.call]
    rw [if_pos hpos, if_pos hf, if_pos hl]
  · intro hpos h1
    have hnf : ¬ SOCKET_FAILURE (os w1.trace (.recv h 1 true)).ret = true := by
      rw [h1]
      decide
    simp only [TcpClient.connected, Impl.connected, _connected, hsel, World.call]
    rw [if_pos hpos, if_neg hnf]
    simp [h1]
  · intro h0
    have hnpos : ¬ (sel > 0) := by omega
    simp only [TcpClient.connected, Impl.connected, _connected, hsel, World.call]
    rw [if_neg hnpos]
    by_cases hf : SOCKET_FAILURE (os w1.trace (.getsockopt_SO_ERROR h)).ret = true
    · rw [if_pos hf]
      constructor
      · intro hc
        split_ifs at hc
        simp at hc
      · intro hc
        rw [hf] at hc
        simp at hc
    · rw [if_neg hf]
      simp only [Bool.not_eq_true] at hf
      simp [hf]

/-- C15 at work: the poll reports a ready handle, the peek reads one byte, and
`connected` returns `true`. -/
theorem connected_classification_witness :
    TcpClient.connected (stubReady { ret := 1 }) worldConnected ⟨some ⟨100⟩⟩ =
      (.ok true,
        { worldConnected with
          trace := worldConnected.trace ++ [OsCall.select 100 0 0, OsCall.recv 100 1 true] }) :=
  (connected_classification (stubReady { ret := 1 }) worldConnected 100 1
    { worldConnected with trace := worldConnected.trace ++ [OsCall.select 100 0 0] }
    rfl).2.2.1 (by decide) rfl

/-! ## C16 – peek does not consume -/

/-- A `select` call does not move the read position of the stream. -/
theorem consumed_select (total : Nat) (trace : List OsCall) (s : socket_t) (a b : Int) :
    consumed total (trace ++ [.select s a b]) = consumed total trace := by
  simp [consumed, List.foldl_append, consumeStep]

/-- A `recv` call with `MSG_PEEK` does not move the read position of the stream. -/
theorem consumed_recv_peek (total : Nat) (trace : List OsCall) (s : socket_t) (len : Int) :
    consumed total (trace ++ [.recv s len true]) = consumed total trace := by
  simp [consumed, List.foldl_append, consumeStep]

/-- A count is never `SOCKET_ERROR`. -/
theorem SOCKET_FAILURE_natCast (n : Nat) : SOCKET_FAILURE (n : Int) = false := by
  simp only [SOCKET_FAILURE, SOCKET_ERROR, beq_eq_false_iff_ne, ne_eq]
  omega

/-- The poll of the stream socket: ready exactly when bytes are pending. -/
theorem _select_stream (incoming : List Nat) (w : World) (h : socket_t) (timeout : Nat) :
    _select (streamOs incoming) w h timeout =
      (.ok (if incoming.drop (consumed incoming.length w.trace) = [] then 0 else 1),
        { w with trace := w.trace ++
          [.select h (toInt32 (timeout / 1000 : Nat)) (toInt32 ((timeout % 1000) * 1000 : Nat))] }) := by
  unfold _select World.call streamOs streamReply
  simp only
  by_cases hp : incoming.drop (consumed incoming.length w.trace) = []
  · rw [if_pos hp, if_pos hp]
    rfl
  · rw [if_neg hp, if_neg hp]
    rfl

/-- The function `_recv` on the stream socket, spelled out: nothing is read when
no byte is pending; otherwise up to `len` pending bytes are handed over, with or
without `MSG_PEEK`. -/
theorem _recv_stream_eq (incoming : List Nat) (w : World) (h : socket_t) (buf : List Nat)
    (timeout : Nat) (pk : Bool) (hv : VALIDATE_SOCKET h = true) :
    _recv (streamOs incoming) w h buf timeout pk =
      if incoming.drop (consumed incoming.length w.trace) = [] then
        (.ok (0, buf), (_select (streamOs incoming) w h timeout).2)
      else if ((incoming.drop (consumed incoming.length w.trace)).take
          (toInt32 buf.length).toNat).length = 0 ∧ buf.length ≠ 0 then
        (.error .SocketDisconnection,
          { (_select (streamOs incoming) w h timeout).2 with
            trace := (_select (streamOs incoming) w h timeout).2.trace ++
              [.recv h (toInt32 buf.length) pk] })
      else
        (.ok (toUInt32 (((incoming.drop (consumed incoming.length w.trace)).take
            (toInt32 buf.length).toNat).length : Nat),
          fillBuffer buf ((incoming.drop (consumed incoming.length w.trace)).take
            (toInt32 buf.length).toNat)),
          { (_select (streamOs incoming) w h timeout).2 with
            trace := (_select (streamOs incoming) w h timeout).2.trace ++
              [.recv h (toInt32 buf.length) pk] }) := by
  have hnv : ¬ ((!VALIDATE_SOCKET h) = true) := by simp [hv]
  have hreply : streamOs incoming (w.trace ++
      [.select h (toInt32 (timeout / 1000 : Nat)) (toInt32 ((timeout % 1000) * 1000 : Nat))])
      (.recv h (toInt32 buf.length) pk) =
      { ret := (((incoming.drop (consumed incoming.length w.trace)).take
          (toInt32 buf.length).toNat).length : Nat),
        data := (incoming.drop (consumed incoming.length w.trace)).take
          (toInt32 buf.length).toNat } := by
    unfold streamOs
    rw [consumed_select]
    rfl
  unfold _recv
  rw [if_neg hnv, _select_stream]
  by_cases hp : incoming.drop (consumed incoming.length w.trace) = []
  · rw [if_pos hp, if_pos hp]
    simp only [if_true]
  · rw [if_neg hp, if_neg hp]
    simp only [World.call]
    rw [hreply]
    generalize (List.take (toInt32 ↑buf.length).toNat (List.drop (consumed incoming.length w.trace) incoming)) = d
    generalize (toInt32 ↑buf.length) = len
    generalize (OsCall.select h (toInt32 ↑(timeout / 1000)) (toInt32 ↑(timeout % 1000 * 1000))) = c
    dsimp only
    rw [if_neg one_ne_zero, SOCKET_FAILURE_natCast d.length, if_neg Bool.false_ne_true]
    by_cases hz : d.length = 0 ∧ buf.length ≠ 0
    · rw [if_pos hz, if_pos (by exact_mod_cast hz)]
    · rw [if_neg hz, if_neg (by exact_mod_cast hz)]

/-- On the stream socket the outcome of `_recv` is decided by the bytes pending:
it is the same with and without `MSG_PEEK` and from every process state with the
same read position. -/
theorem _recv_stream (incoming : List Nat) (w w2 : World) (h : socket_t) (buf : List Nat)
    (timeout : Nat) (pk pk2 : Bool) (hv : VALIDATE_SOCKET h = true)
    (hpos : consumed incoming.length w2.trace = consumed incoming.length w.trace) :
    (_recv (streamOs incoming) w2 h buf timeout pk2).1 =
      (_recv (streamOs incoming) w h buf timeout pk).1 := by
  rw [_recv_stream_eq incoming w2 h buf timeout pk2 hv, _recv_stream_eq incoming w h buf timeout pk hv,
    hpos]
  split_ifs <;> rfl

/-- On the stream socket `_recv` with `MSG_PEEK` leaves the read position where
it was. -/
theorem _recv_stream_peek_position (incoming : List Nat) (w : World) (h : socket_t)
    (buf : List Nat) (timeout : Nat) (hv : VALIDATE_SOCKET h = true) :
    consumed incoming.length (_recv (streamOs incoming) w h buf timeout true).2.trace =
      consumed incoming.length w.trace := by
  rw [_recv_stream_eq incoming w h buf timeout true hv, _select_stream]
  by_cases hp : incoming.drop (consumed incoming.length w.trace) = []
  · rw [if_pos hp]
    exact consumed_select _ _ _ _ _
  · rw [if_neg hp]
    by_cases hz : ((incoming.drop (consumed incoming.length w.trace)).take
        (toInt32 buf.length).toNat).length = 0 ∧ buf.length ≠ 0
    · rw [if_pos hz]
      exact (consumed_recv_peek _ _ _ _).trans (consumed_select _ _ _ _ _)
    · rw [if_neg hz]
      exact (consumed_recv_peek _ _ _ _).trans (consumed_select _ _ _ _ _)

/-- The string overload of `peek` in terms of `_recv`. -/
theorem TcpClient.peek_string_eq (os : Os) (w : World) (h : socket_t) (size timeout : Nat) :
    TcpClient.peek_string os w ⟨some ⟨h⟩⟩ size timeout =
      (trimResult (_recv os w h (List.replicate size 0) timeout true).1,
        (_recv os w h (List.replicate size 0) timeout true).2) := by
  simp only [TcpClient.peek_string, TcpClient.peek, Impl.peek]
  rcases _recv os w h (List.replicate size 0) timeout true with ⟨r, w1⟩
  rcases r with e | ⟨n, b⟩ <;> rfl

/-- The string overload of `receive` in terms of `_recv`. -/
theorem TcpClient.receive_string_eq (os : Os) (w : World) (h : socket_t) (size timeout : Nat) :
    TcpClient.receive_string os w ⟨some ⟨h⟩⟩ size timeout =
      (trimResult (_recv os w h (List.replicate size 0) timeout false).1,
        (_recv os w h (List.replicate size 0) timeout false).2) := by
  simp only [TcpClient.receive_string, TcpClient.receive, Impl.receive]
  rcases _recv os w h (List.replicate size 0) timeout false with ⟨r, w1⟩
  rcases r with e | ⟨n, b⟩ <;> rfl

theorem toInt32_small (n : Nat) (hn : n < 2 ^ 31) : toInt32 (n : Int) = n := by
  unfold toInt32
  omega

theorem toUInt32_small (n : Nat) (hn : n < 2 ^ 32) : toUInt32 (n : Int) = n := by
  unfold toUInt32
  omega

/-- The buffer handed back holds the bytes read at its start. -/
theorem trimBuffer_fillBuffer (size : Nat) (d : List Nat) (hd : d.length ≤ size) :
    trimBuffer d.length (fillBuffer (List.replicate size 0) d) = d := by
  unfold trimBuffer fillBuffer
  simp only [List.length_append, List.length_take, List.length_replicate, List.length_drop,
    List.drop_replicate]
  rw [List.take_of_length_le (by simpa using hd)]
  split_ifs with h1
  · have : size - d.length = 0 := by omega
    simp [this]
  · simp

/-- C16. On a transport that holds a handle of a stream socket with the bytes
`incoming` sent by the peer, for every size and timeout: a `receive` right after
a `peek` of the same size returns what the `peek` returned; the `peek` leaves the
pending bytes where they were; and with bytes pending and a size that fits an
`int`, the `peek` returns the first `size` pending bytes. -/
theorem peek_then_receive_same (incoming : List Nat) (w : World) (h : socket_t)
    (size timeout : Nat) (hv : VALIDATE_SOCKET h = true) :
    (TcpClient.receive_string (streamOs incoming)
        (TcpClient.peek_string (streamOs incoming) w ⟨some ⟨h⟩⟩ size timeout).2
        ⟨some ⟨h⟩⟩ size timeout).1 =
      (TcpClient.peek_string (streamOs incoming) w ⟨some ⟨h⟩⟩ size timeout).1 ∧
    consumed incoming.length
        (TcpClient.peek_string (streamOs incoming) w ⟨some ⟨h⟩⟩ size timeout).2.trace =
      consumed incoming.length w.trace ∧
    (0 < size → size < 2 ^ 31 → incoming.drop (consumed incoming.length w.trace) ≠ [] →
      (TcpClient.peek_string (streamOs incoming) w ⟨some ⟨h⟩⟩ size timeout).1 =
        .ok ((incoming.drop (consumed incoming.length w.trace)).take size)) := by
  have hpos := _recv_stream_peek_position incoming w h (List.replicate size 0) timeout hv
  refine ⟨?_, ?_, ?_⟩
  · rw [TcpClient.peek_string_eq, TcpClient.receive_string_eq]
    simp only
    rw [_recv_stream incoming w _ h (List.replicate size 0) timeout true false hv hpos]
  · rw [TcpClient.peek_string_eq]
    exact hpos
  · intro hsize hint hpend
    rw [TcpClient.peek_string_eq]
    simp only
    rw [_recv_stream_eq incoming w h (List.replicate size 0) timeout true hv, if_neg hpend,
      List.length_replicate, toInt32_small size hint, Int.toNat_ofNat]
    have hlen : ((incoming.drop (consumed incoming.length w.trace)).take size).length ≤ size := by
      rw [List.length_take]
      omega
    have hne : ¬ (((incoming.drop (consumed incoming.length w.trace)).take size).length = 0 ∧
        size ≠ 0) := by
      intro hc
      have h0 := hc.1
      rw [List.length_take] at h0
      have : (incoming.drop (consumed incoming.length w.trace)).length ≠ 0 := by
        intro hl
        exact hpend (List.length_eq_zero.mp hl)
      omega
    rw [if_neg hne]
    simp only [trimResult]
    rw [toUInt32_small _ (by omega), trimBuffer_fillBuffer size _ hlen]

/-- C16 at work: five bytes pending, `peek(3, 0)` returns the first three, and so
does the `receive(3, 0)` after it. -/
theorem peek_then_receive_same_witness :
    (TcpClient.receive_string (streamOs [72, 84, 84, 80, 47])
        (TcpClient.peek_string (streamOs [72, 84, 84, 80, 47]) worldConnected
          ⟨some ⟨100⟩⟩ 3 0).2 ⟨some ⟨100⟩⟩ 3 0).1 =
      (TcpClient.peek_string (streamOs [72, 84, 84, 80, 47]) worldConnected
        ⟨some ⟨100⟩⟩ 3 0).1 ∧
    (TcpClient.peek_string (streamOs [72, 84, 84, 80, 47]) worldConnected
        ⟨some ⟨100⟩⟩ 3 0).1 = .ok [72, 84, 84] :=
  ⟨(peek_then_receive_same [72, 84, 84, 80, 47] worldConnected 100 3 0 rfl).1,
    (peek_then_receive_same [72, 84, 84, 80, 47] worldConnected 100 3 0 rfl).2.2
      (by decide) (by decide) (by decide)⟩

/-! ## C17 – resolve_ip with an empty hostname or port 0 -/

theorem getaddrinfoCalls_append (xs ys : List OsCall) :
    getaddrinfoCalls (xs ++ ys) = getaddrinfoCalls xs + getaddrinfoCalls ys := by
  induction xs with
  | nil => simp [getaddrinfoCalls]
  | cons x xs ih => cases x <;> simp [getaddrinfoCalls, ih]; omega

/-- The constructor of the instance tracker issues no `getaddrinfo` call. -/
theorem InstanceTracker.ctor_getaddrinfoCalls (os : Os) (w : World) :
    getaddrinfoCalls (InstanceTracker.ctor os w).2.trace = getaddrinfoCalls w.trace := by
  unfold InstanceTracker.ctor World.call
  simp only
  split_ifs <;> simp [getaddrinfoCalls_append, getaddrinfoCalls]

/-- The destructor of the instance tracker issues no `getaddrinfo` call. -/
theorem InstanceTracker.dtor_getaddrinfoCalls (os : Os) (w : World) :
    getaddrinfoCalls (InstanceTracker.dtor os w).trace = getaddrinfoCalls w.trace := by
  unfold InstanceTracker.dtor World.call
  simp only
  split_ifs <;> simp [getaddrinfoCalls_append, getaddrinfoCalls]

/-- C17, as the specification states it, fails: with an empty hostname and no
other holder of the socket subsystem, `resolve_ip` calls `WSAStartup` (and
`WSACleanup`) around the `invalid_argument`; and when that startup fails, the
failure is `SystemApiError`, not `invalid_argument`. -/
theorem resolve_ip_invalid_counterexample :
    resolve_ip stubOs world0 [] 80 =
        (.error .invalid_argument, ⟨[.WSAStartup, .WSACleanup], 0⟩) ∧
      resolve_ip stubOs world0 [104] 0 =
        (.error .invalid_argument, ⟨[.WSAStartup, .WSACleanup], 0⟩) ∧
      resolve_ip (stubReady { ret := 1, lastError := 10091 }) world0 [] 80 =
        (.error (.SystemApiError 10091), ⟨[.WSAStartup], 0⟩) := by
  decide

/-- C17, amended. With an empty hostname or port 0, `resolve_ip` issues no
`getaddrinfo` call.  It first acquires a holder of the socket subsystem; when
that succeeds it fails with `invalid_argument` and releases the holder on the
way out.  When another holder exists no system call is issued at all and the
process state is unchanged; when none exists and `WSAStartup` succeeds, the
calls issued are `WSAStartup` and `WSACleanup`, and the count is back at zero. -/
theorem resolve_ip_invalid_input (os : Os) (w : World) (hostname : List Nat) (port : Nat)
    (hbad : hostname = [] ∨ port = 0) :
    getaddrinfoCalls (resolve_ip os w hostname port).2.trace = getaddrinfoCalls w.trace ∧
      (∀ w1 : World, InstanceTracker.ctor os w = (.ok (), w1) →
        resolve_ip os w hostname port =
          (.error .invalid_argument, InstanceTracker.dtor os w1)) ∧
      (0 < w.counter → w.counter < 2 ^ 64 - 1 →
        resolve_ip os w hostname port = (.error .invalid_argument, w)) ∧
      (w.counter = 0 → (os w.trace .WSAStartup).ret = 0 →
        resolve_ip os w hostname port =
          (.error .invalid_argument, ⟨w.trace ++ [.WSAStartup, .WSACleanup], 0⟩)) := by
  have hbody : ∀ w1 : World, resolve_ip_body os w1 hostname port =
      (.error .invalid_argument, w1) := by
    intro w1
    unfold resolve_ip_body
    rw [if_pos hbad]
  have hok : ∀ w1 : World, InstanceTracker.ctor os w = (.ok (), w1) →
      resolve_ip os w hostname port =
        (.error .invalid_argument, InstanceTracker.dtor os w1) := by
    intro w1 hc
    simp only [resolve_ip, hc, hbody]
  refine ⟨?_, hok, ?_, ?_⟩
  · have hct := InstanceTracker.ctor_getaddrinfoCalls os w
    rcases hc : InstanceTracker.ctor os w with ⟨r, w1⟩
    rw [hc] at hct
    rcases r with e | u
    · simp only [resolve_ip, hc]
      exact hct
    · rw [hok w1 hc]
      simp only
      rw [InstanceTracker.dtor_getaddrinfoCalls]
      exact hct
  · intro h0 h1
    have hne : w.counter ≠ 0 := by omega
    have hc : InstanceTracker.ctor os w =
        (.ok (), { w with counter := (w.counter + 1) % 2 ^ 64 }) := by
      unfold InstanceTracker.ctor
      simp only
      rw [if_neg hne]
    rw [hok _ hc]
    have hmod : (w.counter + 1) % 2 ^ 64 = w.counter + 1 := Nat.mod_eq_of_lt (by omega)
    have hne1 : ¬ ((w.counter + 1) % 2 ^ 64 = 1) := by omega
    unfold InstanceTracker.dtor
    simp only
    rw [if_neg hne1, hmod]
    have hback : (w.counter + 1 + (2 ^ 64 - 1)) % 2 ^ 64 = w.counter := by omega
    rw [hback]
  · intro h0 hret
    have hc : InstanceTracker.ctor os w =
        (.ok (), ⟨w.trace ++ [.WSAStartup], 1⟩) := by
      unfold InstanceTracker.ctor World.call
      simp only
      rw [if_pos h0, h0, if_neg (by simpa using hret)]
      rfl
    rw [hok _ hc]
    have hz : (1 + (2 ^ 64 - 1)) % 2 ^ 64 = 0 := by norm_num
    unfold InstanceTracker.dtor World.call
    simp only
    rw [if_pos trivial, hz, List.append_assoc]
    rfl

/-- C17, amended, at work: with another holder of the socket subsystem alive, the
call fails with `invalid_argument` and the process state is untouched. -/
theorem resolve_ip_invalid_input_witness :
    resolve_ip stubOs worldConnected [] 80 = (.error .invalid_argument, worldConnected) :=
  (resolve_ip_invalid_input stubOs worldConnected [] 80 (Or.inl rfl)).2.2.1
    (by decide) (by decide)

/-! ## C18 – the addresses that resolve_ip returns -/

/-- C18, as the specification states it, fails: for an IPv4 entry whose `ai_addr`
is null `resolve_ip` succeeds with an address of family IPv4 and no bytes, not
the 16 bytes of a `sockaddr_in`; an entry of another family is dropped. -/
theorem resolve_ip_length_counterexample :
    resolve_ip (stubResolver [⟨AF_INET, none⟩, ⟨1, some [1, 2]⟩]) world0 [104] 80 =
        (.ok [⟨AF_INET, []⟩],
          ⟨[.WSAStartup, .getaddrinfo [104] 80, .freeaddrinfo, .WSACleanup], 0⟩) ∧
      (⟨AF_INET, []⟩ : IpAddress).addr.length ≠ nativeSize AF_INET := by
  decide

/-- C18, amended. Every successful `resolve_ip` returns the list that
`getaddrinfo` handed back, in its order, with the entries of a family other than
IPv4 and IPv6 removed and each remaining entry translated: every address has
family IPv4 or IPv6 and stores the bytes of its entry as they are - none when
`ai_addr` is null.  The stored length is the native size of the family whenever
the system hands back IP entries with bytes of that size. -/
theorem resolve_ip_result (os : Os) (w : World) (hostname : List Nat) (port : Nat)
    (addrs : List IpAddress) (w2 : World)
    (hres : resolve_ip os w hostname port = (.ok addrs, w2)) :
    ∃ w1 : World, InstanceTracker.ctor os w = (.ok (), w1) ∧
      addrs = ((os w1.trace (.getaddrinfo hostname port)).addrinfo.filter
        (fun curr => decide (curr.ai_family = AF_INET ∨ curr.ai_family = AF_INET6))).map
          translate_addrinfo ∧
      (∀ a ∈ addrs, a.family = AF_INET ∨ a.family = AF_INET6) ∧
      (∀ a ∈ addrs, ∃ info ∈ (os w1.trace (.getaddrinfo hostname port)).addrinfo,
        a.family = info.ai_family ∧ a.addr = info.ai_addr.getD []) ∧
      ((∀ info ∈ (os w1.trace (.getaddrinfo hostname port)).addrinfo,
          info.ai_family = AF_INET ∨ info.ai_family = AF_INET6 →
          ∃ bytes, info.ai_addr = some bytes ∧ bytes.length = nativeSize info.ai_family) →
        ∀ a ∈ addrs, a.addr.length = nativeSize a.family) := by
  unfold resolve_ip at hres
  rcases hc : InstanceTracker.ctor os w with ⟨r, w1⟩
  rw [hc] at hres
  rcases r with e | u
  · simp at hres
  · refine ⟨w1, rfl, ?_⟩
    simp only [resolve_ip_body, World.call] at hres
    have haddrs : addrs = ((os w1.trace (.getaddrinfo hostname port)).addrinfo.filter
        (fun curr => decide (curr.ai_family = AF_INET ∨ curr.ai_family = AF_INET6))).map
          translate_addrinfo := by
      split_ifs at hres <;> simp only [Prod.mk.injEq, Except.ok.injEq, reduceCtorEq,
        false_and] at hres
      exact hres.1.symm
    have htr : ∀ info : AddrInfo, (translate_addrinfo info).family = info.ai_family ∧
        (translate_addrinfo info).addr = info.ai_addr.getD [] := by
      intro info
      unfold translate_addrinfo
      cases info.ai_addr <;> exact ⟨rfl, rfl⟩
    have hmem : ∀ a ∈ addrs, ∃ info ∈ (os w1.trace (.getaddrinfo hostname port)).addrinfo,
        (info.ai_family = AF_INET ∨ info.ai_family = AF_INET6) ∧
        a.family = info.ai_family ∧ a.addr = info.ai_addr.getD [] := by
      intro a ha
      rw [haddrs, List.mem_map] at ha
      obtain ⟨info, hin, rfl⟩ := ha
      rw [List.mem_filter] at hin
      exact ⟨info, hin.1, by simpa using hin.2, htr info⟩
    refine ⟨haddrs, ?_, ?_, ?_⟩
    · intro a ha
      obtain ⟨info, -, hfam, hf, -⟩ := hmem a ha
      rw [hf]
      exact hfam
    · intro a ha
      obtain ⟨info, hin, -, hf, hb⟩ := hmem a ha
      exact ⟨info, hin, hf, hb⟩
    · intro hwf a ha
      obtain ⟨info, hin, hfam, hf, hb⟩ := hmem a ha
      obtain ⟨bytes, hbytes, hlen⟩ := hwf info hin hfam
      rw [hb, hf, hbytes]
      exact hlen

/-- C18, amended, at work: an IPv6 entry, an entry of another family and an IPv4
entry come back as the IPv6 and the IPv4 address, in that order. -/
theorem resolve_ip_result_witness :
    ∃ w1 : World, InstanceTracker.ctor
        (stubResolver [⟨AF_INET6, some (List.replicate 28 3)⟩, ⟨1, some [1, 2]⟩,
          ⟨AF_INET, some (List.replicate 16 2)⟩]) world0 = (.ok (), w1) ∧
      [addrOpen6, addrOpen] =
        (((stubResolver [⟨AF_INET6, some (List.replicate 28 3)⟩, ⟨1, some [1, 2]⟩,
          ⟨AF_INET, some (List.replicate 16 2)⟩]) w1.trace
            (.getaddrinfo [104] 80)).addrinfo.filter
          (fun curr => decide (curr.ai_family = AF_INET ∨ curr.ai_family = AF_INET6))).map
            translate_addrinfo :=
  match resolve_ip_result
      (stubResolver [⟨AF_INET6, some (List.replicate 28 3)⟩, ⟨1, some [1, 2]⟩,
        ⟨AF_INET, some (List.replicate 16 2)⟩]) world0 [104] 80 [addrOpen6, addrOpen]
      ⟨[OsCall.WSAStartup, OsCall.getaddrinfo [104] 80, OsCall.freeaddrinfo,
        OsCall.WSACleanup], 0⟩ rfl with
  | ⟨w1, h1, h2, _⟩ => ⟨w1, h1, h2⟩

/-! ## C20 – the code carried by SystemApiError -/

/-- C20 fails on the code: neither constructor of `SystemApiError` assigns the
public member `error_code`, which keeps its default `0` for every code; the code
handed over is kept in the `std::system_error` base only.  For the code
`WSAENOTSOCK` (10038) the member `error_code` is `0`, not 10038. -/
theorem SystemApiError_error_code_unset :
    (∀ (error_message : Int → String) (c : Int),
        (SystemApiError.ctor error_message c).error_code = 0 ∧
        (SystemApiError.ctor error_message c).code_value = c) ∧
      (∀ (c : Int) (msg : String),
        (SystemApiError.ctor_msg c msg).error_code = 0 ∧
        (SystemApiError.ctor_msg c msg).code_value = c) ∧
      (∀ (error_message : Int → String),
        (SystemApiError.ctor error_message WSAENOTSOCK).error_code ≠ WSAENOTSOCK) ∧
      (∀ msg : String, (SystemApiError.ctor_msg WSAENOTSOCK msg).error_code ≠ WSAENOTSOCK) := by
  have hne : (0 : Int) ≠ WSAENOTSOCK := by decide
  exact ⟨fun _ _ => ⟨rfl, rfl⟩, fun _ _ => ⟨rfl, rfl⟩, fun _ => hne, fun _ => hne⟩

/-! ## C19 – the count of Winsock holders -/

theorem _new_socket_counter (os : Os) (w : World) (s : socket_t) (family : Int) :
    (_new_socket os w s family).2.2.counter = w.counter := by
  unfold _new_socket World.call
  simp only
  split_ifs <;> rfl

theorem _close_socket_counter (os : Os) (w : World) (s : socket_t) :
    (_close_socket os w s).2.counter = w.counter := by
  unfold _close_socket World.call
  simp only
  split_ifs <;> rfl

theorem _connect_counter (os : Os) (w : World) (s : socket_t) (a : IpAddress) :
    (_connect os w s a).2.2.counter = w.counter := by
  unfold _connect World.call _close_socket World.call
  simp only
  split_ifs <;> rfl

theorem Impl.connect_counter (os : Os) (w : World) (impl : Impl) (a : IpAddress) :
    (Impl.connect os w impl a).2.2.counter = w.counter := by
  have h1 := _new_socket_counter os w impl.socket a.family
  unfold Impl.connect
  rcases hn : _new_socket os w impl.socket a.family with ⟨r, s1, w1⟩
  rw [hn] at h1
  rcases r with e | u
  · exact h1
  · have h2 := _connect_counter os w1 s1 a
    simp only at h1 ⊢
    rw [h2, h1]

theorem Impl.connect_list_counter (os : Os) (l : List IpAddress) :
    ∀ (w : World) (impl : Impl), (Impl.connect_list os w impl l).2.2.counter = w.counter := by
  induction l with
  | nil =>
    intro w impl
    rfl
  | cons a rest ih =>
    intro w impl
    have h1 := Impl.connect_counter os w impl a
    rw [Impl.connect_list_cons]
    rcases hc : Impl.connect os w impl a with ⟨r, i1, w1⟩
    rw [hc] at h1
    simp only at h1
    rcases r with e | u
    · cases e <;> simp only [h1]
      rw [ih w1 i1, h1]
    · exact h1

/-- The constructor of the instance tracker either succeeds and adds one to the
count, or fails and leaves the count as it was. -/
theorem InstanceTracker.ctor_counter (os : Os) (w : World) (h : w.counter < 2 ^ 64 - 1) :
    ((InstanceTracker.ctor os w).1 = .ok () ∧
        (InstanceTracker.ctor os w).2.counter = w.counter + 1) ∨
      ((∃ e, (InstanceTracker.ctor os w).1 = .error e) ∧
        (InstanceTracker.ctor os w).2.counter = w.counter) := by
  have hmod : (w.counter + 1) % 2 ^ 64 = w.counter + 1 := Nat.mod_eq_of_lt (by omega)
  unfold InstanceTracker.ctor World.call
  simp only
  by_cases h0 : w.counter = 0
  · rw [if_pos h0]
    by_cases hr : (os w.trace .WSAStartup).ret ≠ 0
    · rw [if_pos hr]
      right
      refine ⟨⟨_, rfl⟩, ?_⟩
      simp only
      omega
    · rw [if_neg hr]
      left
      exact ⟨rfl, hmod⟩
  · rw [if_neg h0]
    left
    exact ⟨rfl, hmod⟩

/-- The destructor of the instance tracker takes one from the count. -/
theorem InstanceTracker.dtor_counter (os : Os) (w : World) (h1 : 1 ≤ w.counter)
    (h2 : w.counter < 2 ^ 64) :
    (InstanceTracker.dtor os w).counter + 1 = w.counter := by
  have hmod : (w.counter + (2 ^ 64 - 1)) % 2 ^ 64 = w.counter - 1 := by omega
  unfold InstanceTracker.dtor World.call
  simp only
  split_ifs
  · simp only
    omega
  · simp only
    omega

/-- The constructor of `Impl` either succeeds and adds one to the count, or fails
and leaves the count as it was. -/
theorem Impl.ctor_adds_holder (os : Os) (w : World) (h : w.counter < 2 ^ 64 - 1) :
    (∃ impl, (Impl.ctor os w).1 = .ok impl ∧ (Impl.ctor os w).2.counter = w.counter + 1) ∨
      ((∃ e, (Impl.ctor os w).1 = .error e) ∧ (Impl.ctor os w).2.counter = w.counter) := by
  unfold Impl.ctor
  rcases hc : InstanceTracker.ctor os w with ⟨r, w1⟩
  have h1 := InstanceTracker.ctor_counter os w h
  rw [hc] at h1
  rcases r with e | u
  · right
    rcases h1 with ⟨h2, -⟩ | ⟨-, h3⟩
    · simp at h2
    · exact ⟨⟨e, rfl⟩, h3⟩
  · left
    rcases h1 with ⟨-, h3⟩ | ⟨⟨e, h2⟩, -⟩
    · exact ⟨_, rfl, h3⟩
    · simp at h2

/-- What a connect does to the count: it grows by one exactly when the instance
gets an implementation object. -/
theorem TcpClient.connect_holds_counter (os : Os) (w : World) (c : TcpClient) (a : IpAddress)
    (h : w.counter < 2 ^ 64 - 1) :
    (TcpClient.connect os w c a).2.2.counter + holds c =
        w.counter + holds (TcpClient.connect os w c a).2.1 ∧
      holds (TcpClient.connect os w c a).2.1 ≤ holds c + 1 := by
  unfold TcpClient.connect
  rcases hp : c.pimpl with _ | impl
  · simp only
    rcases hc : Impl.ctor os w with ⟨r, w1⟩
    have h1 := Impl.ctor_adds_holder os w h
    rw [hc] at h1
    rcases r with e | impl0
    · rcases h1 with ⟨i, h2, -⟩ | ⟨-, h3⟩
      · simp at h2
      · simp only at h3 ⊢
        omega
    · rcases h1 with ⟨i, -, h3⟩ | ⟨⟨e, h2⟩, -⟩
      · have h4 := Impl.connect_counter os w1 impl0 a
        simp only at h3 ⊢
        rw [h4, h3]
        simp [holds, hp]
      · simp at h2
  · exact ⟨rfl, Nat.le_succ _⟩

/-- What a list connect does to the count. -/
theorem TcpClient.connect_list_holds_counter (os : Os) (w : World) (c : TcpClient)
    (l : List IpAddress) (h : w.counter < 2 ^ 64 - 1) :
    (TcpClient.connect_list os w c l).2.2.counter + holds c =
        w.counter + holds (TcpClient.connect_list os w c l).2.1 ∧
      holds (TcpClient.connect_list os w c l).2.1 ≤ holds c + 1 := by
  unfold TcpClient.connect_list
  rcases hp : c.pimpl with _ | impl
  · simp only
    rcases hc : Impl.ctor os w with ⟨r, w1⟩
    have h1 := Impl.ctor_adds_holder os w h
    rw [hc] at h1
    rcases r with e | impl0
    · rcases h1 with ⟨i, h2, -⟩ | ⟨-, h3⟩
      · simp at h2
      · simp only at h3 ⊢
        omega
    · rcases h1 with ⟨i, -, h3⟩ | ⟨⟨e, h2⟩, -⟩
      · have h4 := Impl.connect_list_counter os l w1 impl0
        simp only at h3 ⊢
        rw [h4, h3]
        simp [holds, hp]
      · simp at h2
  · exact ⟨rfl, Nat.le_succ _⟩

/-- What the destructor of `Impl` does to the count. -/
theorem Impl.dtor_releases_holder (os : Os) (w : World) (impl : Impl) (h1 : 1 ≤ w.counter)
    (h2 : w.counter < 2 ^ 64) : (Impl.dtor os w impl).counter + 1 = w.counter := by
  unfold Impl.dtor Impl.close
  have hc := _close_socket_counter os w impl.socket
  rcases hcs : _close_socket os w impl.socket with ⟨s1, w1⟩
  rw [hcs] at hc
  simp only at hc ⊢
  rw [← hc]
  exact InstanceTracker.dtor_counter os w1 (by omega) (by omega)

/-- What `close` does to the count: it gives back the count of the instance. -/
theorem TcpClient.close_holds_counter (os : Os) (w : World) (c : TcpClient)
    (h1 : holds c ≤ w.counter) (h2 : w.counter < 2 ^ 64) :
    (TcpClient.close os w c).2.counter + holds c = w.counter ∧
      holds (TcpClient.close os w c).1 = 0 := by
  unfold TcpClient.close
  rcases hp : c.pimpl with _ | impl
  · simp [holds, hp]
  · have hh : holds c = 1 := by simp [holds, hp]
    simp only
    rw [hh] at h1 ⊢
    exact ⟨Impl.dtor_releases_holder os w impl h1 h2, by simp [holds]⟩

/-- What the destructor of a transport does to the count. -/
theorem TcpClient.dtor_holds_counter (os : Os) (w : World) (c : TcpClient)
    (h1 : holds c ≤ w.counter) (h2 : w.counter < 2 ^ 64) :
    (TcpClient.dtor os w c).counter + holds c = w.counter := by
  unfold TcpClient.dtor
  rcases hp : c.pimpl with _ | impl
  · simp [holds, hp]
  · have hh : holds c = 1 := by simp [holds, hp]
    simp only
    rw [hh] at h1 ⊢
    exact Impl.dtor_releases_holder os w impl h1 h2

theorem resolve_ip_body_counter (os : Os) (w : World) (hostname : List Nat) (port : Nat) :
    (resolve_ip_body os w hostname port).2.counter = w.counter := by
  unfold resolve_ip_body World.call
  simp only
  split_ifs <;> rfl

/-- The function `resolve_ip` leaves the count as it found it. -/
theorem resolve_ip_counter (os : Os) (w : World) (hostname : List Nat) (port : Nat)
    (h : w.counter < 2 ^ 64 - 1) :
    (resolve_ip os w hostname port).2.counter = w.counter := by
  unfold resolve_ip
  rcases hc : InstanceTracker.ctor os w with ⟨r, w1⟩
  have h1 := InstanceTracker.ctor_counter os w h
  rw [hc] at h1
  rcases r with e | u
  · rcases h1 with ⟨h2, -⟩ | ⟨-, h3⟩
    · simp at h2
    · exact h3
  · rcases h1 with ⟨-, h3⟩ | ⟨⟨e, h2⟩, -⟩
    · have hb := resolve_ip_body_counter os w1 hostname port
      simp only at h3 ⊢
      have := InstanceTracker.dtor_counter os (resolve_ip_body os w1 hostname port).2
        (by omega) (by omega)
      omega
    · simp at h2

theorem holders_append (l : List TcpClient) (c : TcpClient) :
    holders (l ++ [c]) = holders l + holds c := by
  induction l with
  | nil => simp [holders]
  | cons x xs ih =>
    show holds x + holders (xs ++ [c]) = holds x + holders xs + holds c
    rw [ih]
    omega

theorem holders_set (l : List TcpClient) :
    ∀ (i : Nat) (c c1 : TcpClient), l[i]? = some c →
      holders (l.set i c1) + holds c = holders l + holds c1 := by
  induction l with
  | nil =>
    intro i c c1 h
    simp at h
  | cons x xs ih =>
    intro i c c1 h
    cases i with
    | zero =>
      simp only [List.getElem?_cons_zero, Option.some.injEq] at h
      subst h
      simp only [List.set_cons_zero, holders]
      omega
    | succ j =>
      simp only [List.getElem?_cons_succ] at h
      have := ih j c c1 h
      simp only [List.set_cons_succ, holders]
      omega

theorem holders_eraseIdx (l : List TcpClient) :
    ∀ (i : Nat) (c : TcpClient), l[i]? = some c →
      holders (l.eraseIdx i) + holds c = holders l := by
  induction l with
  | nil =>
    intro i c h
    simp at h
  | cons x xs ih =>
    intro i c h
    cases i with
    | zero =>
      simp only [List.getElem?_cons_zero, Option.some.injEq] at h
      subst h
      simp only [List.eraseIdx_cons_zero, holders]
      omega
    | succ j =>
      simp only [List.getElem?_cons_succ] at h
      have := ih j c h
      simp only [List.eraseIdx_cons_succ, holders]
      omega

theorem holders_eq_zero (l : List TcpClient) :
    holders l = 0 ↔ ∀ c ∈ l, c.pimpl = none := by
  induction l with
  | nil => simp [holders]
  | cons x xs ih =>
    simp only [holders, Nat.add_eq_zero, ih, List.mem_cons, forall_eq_or_imp]
    constructor
    · rintro ⟨h1, h2⟩
      refine ⟨?_, h2⟩
      unfold holds at h1
      cases hx : x.pimpl with
      | none => rfl
      | some i => simp [hx] at h1
    · rintro ⟨h1, h2⟩
      exact ⟨by simp [holds, h1], h2⟩

/-- One operation keeps the count equal to the number of instances that hold an
implementation object, and adds at most one such instance. -/
theorem Process.step_invariant (os : Os) (p : Process) (op : Op)
    (hinv : p.world.counter = holders p.clients) (hb : holders p.clients < 2 ^ 64 - 1) :
    (Process.step os p op).world.counter = holders (Process.step os p op).clients ∧
      holders (Process.step os p op).clients ≤ holders p.clients + 1 := by
  have hw : p.world.counter < 2 ^ 64 - 1 := by omega
  cases op with
  | construct =>
    simp only [Process.step, holders_append]
    have : holds TcpClient.ctor = 0 := rfl
    omega
  | connect i a =>
    simp only [Process.step]
    rcases hg : p.clients[i]? with _ | c
    · exact ⟨hinv, Nat.le_succ _⟩
    · have h1 := TcpClient.connect_holds_counter os p.world c a hw
      have h2 := holders_set p.clients i c (TcpClient.connect os p.world c a).2.1 hg
      simp only
      rcases hcon : TcpClient.connect os p.world c a with ⟨r, c1, w1⟩
      rw [hcon] at h1 h2
      simp only at h1 h2 ⊢
      omega
  | connect_list i l =>
    simp only [Process.step]
    rcases hg : p.clients[i]? with _ | c
    · exact ⟨hinv, Nat.le_succ _⟩
    · have h1 := TcpClient.connect_list_holds_counter os p.world c l hw
      have h2 := holders_set p.clients i c (TcpClient.connect_list os p.world c l).2.1 hg
      simp only
      rcases hcon : TcpClient.connect_list os p.world c l with ⟨r, c1, w1⟩
      rw [hcon] at h1 h2
      simp only at h1 h2 ⊢
      omega
  | close i =>
    simp only [Process.step]
    rcases hg : p.clients[i]? with _ | c
    · exact ⟨hinv, Nat.le_succ _⟩
    · have h2 := holders_set p.clients i c (TcpClient.close os p.world c).1 hg
      have h0 := holders_eraseIdx p.clients i c hg
      have h1 := TcpClient.close_holds_counter os p.world c (by omega) (by omega)
      simp only
      rcases hcl : TcpClient.close os p.world c with ⟨c1, w1⟩
      rw [hcl] at h1 h2
      simp only at h1 h2 ⊢
      omega
  | destroy i =>
    simp only [Process.step]
    rcases hg : p.clients[i]? with _ | c
    · exact ⟨hinv, Nat.le_succ _⟩
    · have h2 := holders_eraseIdx p.clients i c hg
      have h1 := TcpClient.dtor_holds_counter os p.world c (by omega) (by omega)
      simp only
      omega
  | resolve_ip hostname port =>
    simp only [Process.step]
    have h1 := resolve_ip_counter os p.world hostname port hw
    omega

/-- A sequence of operations keeps the count equal to the number of instances
that hold an implementation object. -/
theorem Process.run_invariant (os : Os) (ops : List Op) :
    ∀ p : Process, p.world.counter = holders p.clients →
      holders p.clients + ops.length < 2 ^ 64 →
      (Process.run os p ops).world.counter = holders (Process.run os p ops).clients := by
  induction ops with
  | nil =>
    intro p hinv _
    exact hinv
  | cons op rest ih =>
    intro p hinv hb
    simp only [List.length_cons] at hb
    have hs := Process.step_invariant os p op hinv (by omega)
    simp only [Process.run, List.foldl_cons]
    exact ih (Process.step os p op) hs.1 (by omega)

/-- C19, as the specification states it, fails: after a transport was constructed
and its connect was refused, no instance is connected or connecting - the
only instance owns no socket - and the count of holders is one, not zero. -/
theorem holder_count_counterexample :
    Process.run stubOs ⟨[], world0⟩ [.construct, .connect 0 addrRefused] =
        ⟨[⟨some ⟨INVALID_SOCKET⟩⟩], worldAfterRefusal⟩ ∧
      WinsockLoader.get_count worldAfterRefusal = 1 ∧
      socketOwners [⟨some ⟨INVALID_SOCKET⟩⟩] = 0 := by
  decide

/-- C19, amended. From a process without transports and without holders, after
every sequence of constructions, connects (successful or failed), closes,
destructions and `resolve_ip` calls, `WinsockLoader::get_count` equals the number
of transport instances that hold an implementation object - those whose connect
got past the Winsock startup, whether it then succeeded or failed, and that were
not closed since - and it is zero exactly when no instance holds one. -/
theorem holder_count_invariant (os : Os) (trace0 : List OsCall) (ops : List Op)
    (hlen : ops.length < 2 ^ 64) :
    WinsockLoader.get_count (Process.run os ⟨[], ⟨trace0, 0⟩⟩ ops).world =
        holders (Process.run os ⟨[], ⟨trace0, 0⟩⟩ ops).clients ∧
      (WinsockLoader.get_count (Process.run os ⟨[], ⟨trace0, 0⟩⟩ ops).world = 0 ↔
        ∀ c ∈ (Process.run os ⟨[], ⟨trace0, 0⟩⟩ ops).clients, c.pimpl = none) := by
  have h := Process.run_invariant os ops ⟨[], ⟨trace0, 0⟩⟩ rfl (by simpa [holders] using hlen)
  unfold WinsockLoader.get_count
  exact ⟨h, by rw [h, holders_eq_zero]⟩

/-- C19, amended, at work: two transports, one connected and one refused, then
the first closed and a name resolved: one holder is left, the refused one. -/
theorem holder_count_invariant_witness :
    WinsockLoader.get_count (Process.run stubOs ⟨[], ⟨[], 0⟩⟩
        [.construct, .construct, .connect 0 addrOpen, .connect 1 addrRefused, .close 0,
          .resolve_ip [104] 80]).world =
      holders (Process.run stubOs ⟨[], ⟨[], 0⟩⟩
        [.construct, .construct, .connect 0 addrOpen, .connect 1 addrRefused, .close 0,
          .resolve_ip [104] 80]).clients :=
  (holder_count_invariant stubOs []
    [.construct, .construct, .connect 0 addrOpen, .connect 1 addrRefused, .close 0,
      .resolve_ip [104] 80] (by decide)).1

/-! ## C21 – the timeval of the readiness poll -/

/-- For a timeout below `2 ^ 31 * 1000` milliseconds the `timeval` handed to
`select` is the timeout: both fields are stored unchanged, `tv_usec` is below a
million, and seconds and microseconds add up to the timeout. -/
theorem select_timeval_exact (t : Nat) (ht : t < 2 ^ 31 * 1000) :
    toInt32 (t / 1000 : Nat) = (t / 1000 : Nat) ∧
      toInt32 ((t % 1000) * 1000 : Nat) = ((t % 1000) * 1000 : Nat) ∧
      (t % 1000) * 1000 < 1000000 ∧
      (t / 1000) * 1000 + (t % 1000) * 1000 / 1000 = t := by
  refine ⟨toInt32_small _ (by omega), toInt32_small _ (by omega), by omega, by omega⟩

/-- C21 fails on the code for a timeout of `2 ^ 31 * 1000` milliseconds and more:
`tv.tv_sec = timeout / 1000` stores a 64-bit quotient in a 32-bit `long`.  For
2147483648000 ms the field holds -2147483648, not 2147483648; for 4294967296000
ms both fields are zero, and `receive` polls without blocking exactly as for the
timeout 0.  Every poll hands `select` the two fields so converted; `tv_usec` is
`(t mod 1000) * 1000`, below a million, for every timeout. -/
theorem select_timeval_wraps :
    TcpClient.receive stubOs worldConnected ⟨some ⟨100⟩⟩ [0] 2147483648000 =
        (.ok (0, [0]),
          { worldConnected with
            trace := worldConnected.trace ++ [.select 100 (-2147483648) 0] }) ∧
      toInt32 (2147483648000 / 1000 : Nat) ≠ (2147483648000 / 1000 : Nat) ∧
      TcpClient.receive stubOs worldConnected ⟨some ⟨100⟩⟩ [0] 4294967296000 =
        TcpClient.receive stubOs worldConnected ⟨some ⟨100⟩⟩ [0] 0 ∧
      (∀ (os : Os) (w : World) (h : socket_t) (t : Nat),
        (_select os w h t).2.trace = w.trace ++
          [.select h (toInt32 (t / 1000 : Nat)) (toInt32 ((t % 1000) * 1000 : Nat))]) ∧
      (∀ t : Nat, toInt32 ((t % 1000) * 1000 : Nat) = ((t % 1000) * 1000 : Nat) ∧
        (t % 1000) * 1000 < 1000000) := by
  refine ⟨by decide, by decide, by decide, fun os w h t => ?_, fun t => ?_⟩
  · rw [_select_trace]
  · exact ⟨toInt32_small _ (by omega), by omega⟩

end Sleipner
